import Mathlib

/-!
Shallow embedding of the AWS-Serverless-Data-Lake Lambda sources
(`src/student-datalake/athena_query.py`, `index.py`, `lambda_enhanced.py`)
and proofs about the query-execution lifecycle controller they implement.

Conventions of the embedding:
* Python strings become `String` / `List Char`; Python `dict`s whose keys
  matter dynamically become insertion-ordered association lists
  (`List (String × _)`) with Python update semantics (`pyInsert`).
* Wall-clock time is modelled with `ℚ`: each engine status check carries an
  oracle-chosen latency, and `time.sleep t` advances the clock by exactly `t`.
* `boto3` is an oracle (`Engine`): the submit call, the sequence of
  `get_query_execution` responses and the `get_query_results` page are inputs.
* Exceptions become an explicit `PyErr` value threaded through `Except`.
-/

set_option autoImplicit false
set_option maxHeartbeats 1000000

namespace AwsLake

/-- Python `int()` applied to a nonnegative-or-negative rational:
truncation toward zero (used for `int(time.time() - start_time)`). -/
def pyInt (q : ℚ) : ℤ := if 0 ≤ q then ⌊q⌋ else -⌊-q⌋

/-- The characters matched by the regex class `\s` and stripped by
`str.strip()` for the ASCII inputs this embedding ranges over:
space, tab, newline, carriage return, vertical tab, form feed. -/
def isPySpace (c : Char) : Bool :=
  c == ' ' || c == '\t' || c == '\n' || c == '\r' || c == '\x0b' || c == '\x0c'

/-- Python `str.strip()` on a character list. -/
def pyStripL (cs : List Char) : List Char :=
  ((cs.dropWhile isPySpace).reverse.dropWhile isPySpace).reverse

/-- Python `str.strip()`. -/
def pyStrip (s : String) : String := String.mk (pyStripL s.toList)

/-- Python dict assignment `d[k] = v` on an insertion-ordered association
list: an existing key keeps its position and is overwritten, a new key is
appended at the end. -/
def pyInsert {β : Type} (d : List (String × β)) (k : String) (v : β) :
    List (String × β) :=
  if d.any (fun p => p.1 == k) then
    d.map (fun p => if p.1 == k then (k, v) else p)
  else d ++ [(k, v)]

/-- Python `d.get(k)` on an association list (`None` when absent). -/
def pyGet {β : Type} (d : List (String × β)) (k : String) : Option β :=
  (d.find? (fun p => p.1 == k)).map (·.2)

/-!
## The denylist regex fragment

`validate_query` matches the query against nine (athena_query.py) or ten
(lambda_enhanced.py) fixed patterns with `re.search(..., re.IGNORECASE)`.
Every one of these patterns is built from three constructs only: literal
tokens, `\s+`, and `.*` (which does not match a newline, `re.DOTALL` being
absent).  `matchesAt` is a complete backtracking matcher for that fragment,
`reSearch` the `re.search` existential over start positions.  Case
insensitivity is realised by storing the literals lowercased and lowercasing
the subject before the search.
-/

inductive PatElem : Type where
  | lit (tok : List Char)
  | wsPlus
  | dotStar
  deriving DecidableEq

def matchesAt (p : List PatElem) (cs : List Char) : Bool :=
  match p with
  | [] => true
  | .lit tok :: ps => tok.isPrefixOf cs && matchesAt ps (cs.drop tok.length)
  | .wsPlus :: ps =>
      (List.range cs.length).any fun k =>
        ((cs.take (k + 1)).all isPySpace) && matchesAt ps (cs.drop (k + 1))
  | .dotStar :: ps =>
      (List.range (cs.length + 1)).any fun n =>
        ((cs.take n).all fun c => !(c == '\n')) && matchesAt ps (cs.drop n)

/-- `re.search(pat, subject)` viewed as a Boolean: does the pattern match at
some start position? -/
def reSearch (p : List PatElem) (cs : List Char) : Bool :=
  (List.range (cs.length + 1)).any fun i => matchesAt p (cs.drop i)

/-- Case-insensitive search: lowercase the subject (pattern literals are
stored lowercased). -/
def reSearchCI (p : List PatElem) (s : String) : Bool :=
  reSearch p (s.toList.map Char.toLower)

/-- The nine patterns of `dangerous_patterns` in athena_query.py, each paired
with its regex source text (used in the rejection message). -/
def dangerousPatternsAQ : List (String × List PatElem) :=
  [(";.*--", [.lit [';'], .dotStar, .lit ['-', '-']]),
   ("DROP\\s+DATABASE", [.lit "drop".toList, .wsPlus, .lit "database".toList]),
   ("DROP\\s+TABLE.*CASCADE",
     [.lit "drop".toList, .wsPlus, .lit "table".toList, .dotStar,
      .lit "cascade".toList]),
   ("TRUNCATE\\s+", [.lit "truncate".toList, .wsPlus]),
   ("GRANT\\s+", [.lit "grant".toList, .wsPlus]),
   ("REVOKE\\s+", [.lit "revoke".toList, .wsPlus]),
   ("ALTER\\s+SYSTEM", [.lit "alter".toList, .wsPlus, .lit "system".toList]),
   ("CREATE\\s+ROLE", [.lit "create".toList, .wsPlus, .lit "role".toList]),
   ("EXECUTE\\s+AS", [.lit "execute".toList, .wsPlus, .lit "as".toList])]

/-- The ten patterns of `dangerous_patterns` in lambda_enhanced.py: the nine
of athena_query.py followed by `EXEC\s+`. -/
def dangerousPatternsLE : List (String × List PatElem) :=
  dangerousPatternsAQ ++ [("EXEC\\s+", [.lit "exec".toList, .wsPlus])]

/-- `validate_query` (athena_query.py lines 105-141 and lambda_enhanced.py
lines 254-283 are identical except for the pattern list, passed here as
`pats`).  Returns `(is_valid, error_message)`.  The emptiness test precedes
the strip; the size test measures the stripped text (`len` counts
characters). -/
def validateQueryWith (pats : List (String × List PatElem)) (query : String) :
    Bool × String :=
  if query = "" then (false, "Query must be a non-empty string")
  else
    let q := pyStrip query
    if 262144 < q.length then
      (false, "Query size (" ++ toString q.length ++
        " bytes) exceeds maximum of 262144 bytes")
    else
      match pats.find? (fun p => reSearchCI p.2 q) with
      | some p => (false, "Query contains disallowed pattern: " ++ p.1)
      | none => (true, "")

/-- `validate_query` of athena_query.py. -/
def validateQueryAQ (query : String) : Bool × String :=
  validateQueryWith dangerousPatternsAQ query

/-- `validate_query` of lambda_enhanced.py. -/
def validateQueryLE (query : String) : Bool × String :=
  validateQueryWith dangerousPatternsLE query

/-!
## Data model: states, exceptions, the engine oracle
-/

/-- The Athena execution states reported by `get_query_execution`. -/
inductive QState : Type where
  | queued
  | running
  | succeeded
  | failed
  | cancelled
  deriving DecidableEq

/-- The terminal states (`SUCCEEDED`, `FAILED`, `CANCELLED`), as tested by
`state in ['SUCCEEDED', 'FAILED', 'CANCELLED']` in index.py. -/
def QState.isTerminal : QState → Bool
  | .succeeded => true
  | .failed => true
  | .cancelled => true
  | _ => false

/-- The Python exceptions the handlers distinguish.  `ClientError` and
`BotoCoreError` are sibling subclasses of `Exception` in botocore (neither
is a subclass of the other), which the `clientError` / `botoCoreError`
constructors reflect.  `modelStuck` stands for any failure outside the
model (in particular the oracle running out of status responses); the
handlers treat it like an otherwise-unclassified `Exception`. -/
inductive PyErr : Type where
  | jsonDecodeError (msg : String)
  | valueError (msg : String)
  | runtimeError (msg : String)
  | timeoutError (maxWait : ℕ) (elapsed : ℤ) (id : String)
  | clientError (code : String) (msg : String)
  | botoCoreError (msg : String)
  | modelStuck
  deriving DecidableEq

/-- One `get_query_execution` response: the observed state, the optional
`StateChangeReason`, the `Statistics` numbers, and the wall-clock duration
of the call itself (chosen by the oracle). -/
structure StatusObs : Type where
  state : QState
  reason : Option String := none
  bytesScanned : ℕ := 0
  millis : ℕ := 0
  latency : ℚ := 0
  deriving DecidableEq

/-- A raw `Datum` of a result row: `{'VarCharValue': ...}`, possibly absent. -/
structure RawDatum : Type where
  varCharValue : Option String := none
  deriving DecidableEq

/-- A raw result `Row`: `{'Data': [...]}`. -/
structure RawRow : Type where
  data : List RawDatum := []
  deriving DecidableEq

/-- A raw `ColumnInfo` entry.  Only `Name` and `Type` are ever read by the
sources; the passthrough attributes (`CaseSensitive`, `Nullable`,
`Precision`, `Scale`) copied by athena_query.py are not modelled. -/
structure RawCol : Type where
  name : Option String := none
  type : Option String := none
  deriving DecidableEq

/-- A raw `get_query_results` page: `ResultSet.ResultSetMetadata.ColumnInfo`
and `ResultSet.Rows`. -/
structure RawPage : Type where
  columnInfo : List RawCol := []
  rows : List RawRow := []
  deriving DecidableEq

/-- The external engine, as an oracle: the outcome of the single
`start_query_execution` call, the successive `get_query_execution`
responses, and the `get_query_results` page. -/
structure Engine : Type where
  submitResp : Except PyErr String := .ok "qid"
  statusResps : List (Except PyErr StatusObs) := []
  fetchResp : Except PyErr RawPage := .ok {}

/-!
## The completion poller

`wait_for_query_completion` exists twice: athena_query.py lines 257-317
(textually identical in lambda_enhanced.py lines 369-414), which clamps the
sleep to the remaining deadline, and index.py lines 188-237, which does not.
Both are embedded as structural recursion over the oracle's response list;
`elapsed` is the wall clock relative to `start_time` and advances by the
check latency and by each sleep.
-/

/-- The record of one pass through the backoff arm of athena_query.py's
poller: the updated `poll_interval` (`min(poll_interval * 1.5, 5)`), the
integer `remaining = max_wait_time - int(elapsed)`, and the duration finally
passed to `time.sleep` (`remaining` if `remaining < poll_interval`, else
`poll_interval`). -/
structure SleepEvent : Type where
  backoff : ℚ
  remaining : ℤ
  slept : ℚ
  deriving DecidableEq

/-- Result of athena_query.py's `wait_for_query_completion`.  `completed`
is the `return status` on `SUCCEEDED` (recording the elapsed time at which
that terminal check returned); `failedRun` / `cancelledRun` are the
`RuntimeError`s; `timedOut` is the `TimeoutError` raised after the loop,
carrying `max_wait_time`, `int(elapsed)` and the execution id exactly as the
message does; `raised` propagates an engine error; `noResponse` marks
oracle exhaustion. -/
inductive WaitResA : Type where
  | completed (s : StatusObs) (elapsedAtCheck : ℚ)
  | failedRun (reason : Option String) (elapsedAtCheck : ℚ)
  | cancelledRun (elapsedAtCheck : ℚ)
  | timedOut (maxWait : ℕ) (elapsed : ℤ) (id : String)
  | raised (e : PyErr)
  | noResponse
  deriving DecidableEq

structure WaitOutA : Type where
  res : WaitResA
  events : List SleepEvent
  deriving DecidableEq

/-- The polling loop of athena_query.py / lambda_enhanced.py, one
constructor-matched step per loop iteration. -/
def waitAQGo (d : ℕ) (id : String) (resps : List (Except PyErr StatusObs))
    (elapsed interval : ℚ) : WaitOutA :=
  if (d : ℚ) ≤ elapsed then ⟨.timedOut d (pyInt elapsed) id, []⟩
  else
    match resps with
    | [] => ⟨.noResponse, []⟩
    | .error e :: _ => ⟨.raised e, []⟩
    | .ok s :: rest =>
        let e2 := elapsed + s.latency
        if s.state = .succeeded then ⟨.completed s e2, []⟩
        else if s.state = .failed then ⟨.failedRun s.reason e2, []⟩
        else if s.state = .cancelled then ⟨.cancelledRun e2, []⟩
        else
          let b := min (interval * (3 / 2)) 5
          let rem : ℤ := (d : ℤ) - pyInt e2
          let slept : ℚ := if (rem : ℚ) < b then (rem : ℚ) else b
          let out := waitAQGo d id rest (e2 + slept) b
          ⟨out.res, ⟨b, rem, slept⟩ :: out.events⟩

/-- `wait_for_query_completion(query_execution_id, max_wait_time)` of
athena_query.py / lambda_enhanced.py: `start_time = now`, `poll_interval =
1`. -/
def waitAQ (d : ℕ) (id : String) (resps : List (Except PyErr StatusObs)) :
    WaitOutA :=
  waitAQGo d id resps 0 1

/-- Result of index.py's `wait_for_query_completion`, which returns the
status object for every terminal state and lets the handler distinguish
them. -/
inductive WaitResI : Type where
  | done (s : StatusObs) (elapsedAtCheck : ℚ)
  | timedOut (maxWait : ℕ) (elapsed : ℤ) (id : String)
  | raised (e : PyErr)
  | noResponse
  deriving DecidableEq

structure WaitOutI : Type where
  res : WaitResI
  sleeps : List ℚ
  deriving DecidableEq

/-- The polling loop of index.py: backoff `min(poll_interval * 1.5, 5)` with
no clamping against the remaining deadline. -/
def waitIdxGo (d : ℕ) (id : String) (resps : List (Except PyErr StatusObs))
    (elapsed interval : ℚ) : WaitOutI :=
  if (d : ℚ) ≤ elapsed then ⟨.timedOut d (pyInt elapsed) id, []⟩
  else
    match resps with
    | [] => ⟨.noResponse, []⟩
    | .error e :: _ => ⟨.raised e, []⟩
    | .ok s :: rest =>
        let e2 := elapsed + s.latency
        if s.state.isTerminal then ⟨.done s e2, []⟩
        else
          let b := min (interval * (3 / 2)) 5
          let out := waitIdxGo d id rest (e2 + b) b
          ⟨out.res, b :: out.sleeps⟩

/-- `wait_for_query_completion(query_execution_id, max_wait_time)` of
index.py. -/
def waitIdx (d : ℕ) (id : String) (resps : List (Except PyErr StatusObs)) :
    WaitOutI :=
  waitIdxGo d id resps 0 1

/-!
## The result normalizer (`get_query_results`)

athena_query.py lines 320-386 and lambda_enhanced.py lines 417-468 share the
row-parsing loop (`for i, col in enumerate(data): if i < len(column_metadata):
row_dict[name_i] = col.get('VarCharValue')`); index.py lines 240-301 uses a
dict comprehension over `range(min(len(data), len(column_metadata)))` with
default `''` for a missing `VarCharValue`.
-/

/-- A normalized result row: a Python dict from column name to the
`VarCharValue` (which may itself be `None`). -/
abbrev RowDict : Type := List (String × Option String)

/-- The column-name list as computed by athena_query.py /
lambda_enhanced.py: `col.get('Name', f'col_{i}')` for each enumerated
`ColumnInfo` entry. -/
def colNames (cols : List RawCol) : List String :=
  cols.enum.map fun p => p.2.name.getD ("col_" ++ toString p.1)

/-- The row-building loop of athena_query.py / lambda_enhanced.py
(`for i, col in enumerate(data): if i < len(column_metadata): ...`),
with the enumeration index and dict accumulator explicit. -/
def parseRowGoAQ (names : List String) :
    List RawDatum → ℕ → List (String × Option String) →
      List (String × Option String)
  | [], _, acc => acc
  | dt :: rest, i, acc =>
      parseRowGoAQ names rest (i + 1)
        (if i < names.length then pyInsert acc (names.getD i "") dt.varCharValue
         else acc)

/-- One parsed row of athena_query.py / lambda_enhanced.py. -/
def parseRowAQ (names : List String) (data : List RawDatum) :
    List (String × Option String) :=
  parseRowGoAQ names data 0 []

/-- Parsed column metadata entry of athena_query.py (`name` and `type`; the
four passthrough attributes the source also copies are never read and are
not modelled). -/
structure ColMetaA : Type where
  name : String
  type : String
  deriving DecidableEq

/-- Return value of athena_query.py's `get_query_results`. -/
structure ResultsAQ : Type where
  columnMetadata : List ColMetaA
  rows : List RowDict
  rowCount : ℕ
  deriving DecidableEq

/-- `get_query_results` of athena_query.py (lines 320-386): default column
name `col_{i}`, default type `unknown`, header row dropped, each data row
zipped positionally against the first `len(column_metadata)` values. -/
def getQueryResultsAQ (page : RawPage) : ResultsAQ :=
  let colMeta := page.columnInfo.enum.map fun p =>
    ColMetaA.mk (p.2.name.getD ("col_" ++ toString p.1)) (p.2.type.getD "unknown")
  let names := colMeta.map (·.name)
  let dataRows := page.rows.drop 1
  let parsed := dataRows.map fun r => parseRowAQ names r.data
  ⟨colMeta, parsed, parsed.length⟩

/-- Column metadata of lambda_enhanced.py's `get_query_results`, kept as a
genuine Python dict (`{'name': ..., 'type': ...}`) because
`sanitize_results` later looks keys up in it dynamically. -/
abbrev ColDictE : Type := List (String × String)

/-- Return value of lambda_enhanced.py's `get_query_results`. -/
structure ResultsLE : Type where
  columnMetadata : List ColDictE
  rows : List RowDict
  rowCount : ℕ
  deriving DecidableEq

/-- `get_query_results` of lambda_enhanced.py (lines 417-468): identical to
athena_query.py's except that the column entries carry only `name`/`type`. -/
def getQueryResultsLE (page : RawPage) : ResultsLE :=
  let colMeta : List ColDictE := page.columnInfo.enum.map fun p =>
    [("name", p.2.name.getD ("col_" ++ toString p.1)),
     ("type", p.2.type.getD "unknown")]
  let names := colNames page.columnInfo
  let dataRows := page.rows.drop 1
  let parsed := dataRows.map fun r => parseRowAQ names r.data
  ⟨colMeta, parsed, parsed.length⟩

/-- Parsed column metadata entry of index.py. -/
structure ColMetaI : Type where
  name : String
  type : String
  deriving DecidableEq

/-- Return value of index.py's `get_query_results` (it has no `rowCount`
field). -/
structure ResultsIdx : Type where
  columnMetadata : List ColMetaI
  rows : List (List (String × String))
  deriving DecidableEq

/-- The dict comprehension of index.py lines 282-285:
`{column_metadata[i]['name']: data[i].get('VarCharValue', '') for i in
range(min(len(data), len(column_metadata)))}`.  The surrounding
`except (IndexError, KeyError)` can never fire (all indices are below both
lengths and both keys always exist), so it is not modelled. -/
def parseRowIdx (names : List String) (data : List RawDatum) :
    List (String × String) :=
  (List.range (min data.length names.length)).foldl
    (fun acc i =>
      pyInsert acc (names.getD i "") (((data.getD i {}).varCharValue).getD ""))
    []

/-- `get_query_results` of index.py (lines 240-301): returns empty metadata
and rows when `ColumnInfo` is empty; default column name `unknown`; missing
`VarCharValue` becomes `''`. -/
def getQueryResultsIdx (page : RawPage) : ResultsIdx :=
  if page.columnInfo = [] then ⟨[], []⟩
  else
    let colMeta := page.columnInfo.map fun c =>
      ColMetaI.mk (c.name.getD "unknown") (c.type.getD "unknown")
    let names := colMeta.map (·.name)
    let rows := (page.rows.drop 1).map fun r => parseRowIdx names r.data
    ⟨colMeta, rows⟩

/-!
## `sanitize_value` / `sanitize_results` of lambda_enhanced.py

`sanitize_results` (lines 301-314) receives the rows and the `name`/`type`
column dicts produced by `get_query_results`, but looks up the key `'Name'`
(capitalised, the raw-AWS spelling) in each column dict.  That key is never
present, so every column name falls back to `f'col_{columns.index(col)}'`
and every row lookup misses.  The embedding keeps the dynamic lookups so
that this behaviour is derived, not asserted.
-/

/-- `sanitize_value` restricted to the values that can actually occur here:
`None` or a string (every `VarCharValue` is a string). -/
def sanitizeValue : Option String → Option String
  | none => none
  | some s => some (if s = "" then "" else pyStrip s)

/-- `col.get('Name', f'col_{columns.index(col)}')` of `sanitize_results`. -/
def colDictLabel (cols : List ColDictE) (col : ColDictE) : String :=
  match pyGet col "Name" with
  | some n => n
  | none => "col_" ++ toString (List.indexOf col cols)

/-- `sanitize_results` of lambda_enhanced.py. -/
def sanitizeResultsLE (rows : List RowDict) (cols : List ColDictE) :
    List RowDict :=
  rows.map fun row =>
    cols.foldl
      (fun acc col =>
        let cn := colDictLabel cols col
        pyInsert acc cn (sanitizeValue (Option.join (pyGet row cn))))
      []

/-!
## The orchestrators

`execute_athena_query` (athena_query.py lines 389-448) and `execute_query`
(lambda_enhanced.py lines 471-514): validate → submit → poll → fetch-if-
succeeded.  Both are embedded together with a trace counting how many times
`start_query_execution` and `get_query_results` were invoked.
-/

/-- Counts of the engine calls made during one orchestration. -/
structure ExecTrace : Type where
  submits : ℕ
  fetches : ℕ
  deriving DecidableEq

/-- Python `x or default` for an optional string argument (`None` and `''`
are both falsy). -/
def orDefault (o : Option String) (dflt : String) : String :=
  match o with
  | some s => if s = "" then dflt else s
  | none => dflt

/-- Python `str(...)` of an `Option String` as it appears inside f-strings
(`None` prints as `"None"`). -/
def pyStrOfOpt : Option String → String
  | some s => s
  | none => "None"

/-- Result dict of `execute_athena_query`. -/
structure OutcomeA : Type where
  message : String
  queryExecutionId : String
  state : QState
  stateChangeReason : Option String
  rows : List RowDict
  columnMetadata : List ColMetaA
  rowCount : ℕ
  dataScannedInBytes : ℕ
  executionTimeInMillis : ℕ
  query : String
  database : String
  deriving DecidableEq

/-- The module-level configuration of athena_query.py / lambda_enhanced.py
(read once at import; the claims assume it loaded successfully). -/
structure ConfigP : Type where
  databaseName : String := "student_db"
  s3Bucket : String := "bucket"
  resultsPath : String := "s3://bucket/athena-results/"
  maxWaitTime : ℤ := 60

/-- `execute_athena_query` of athena_query.py: validate, submit, poll to a
terminal state, fetch results only on `SUCCEEDED`.  The `else` arm setting
`rows = []` is kept even though the poller only returns on `SUCCEEDED`. -/
def executeAthenaQuery (cfg : ConfigP) (query : String)
    (databaseArg _outputArg : Option String) (maxWait : ℕ) (eng : Engine) :
    Except PyErr OutcomeA × ExecTrace :=
  let v := validateQueryAQ query
  if v.1 = false then (.error (.valueError v.2), ⟨0, 0⟩)
  else
    let db := orDefault databaseArg cfg.databaseName
    match eng.submitResp with
    | .error e => (.error e, ⟨1, 0⟩)
    | .ok qid =>
      match (waitAQ maxWait qid eng.statusResps).res with
      | .completed s _ =>
        if s.state = .succeeded then
          match eng.fetchResp with
          | .error e => (.error e, ⟨1, 1⟩)
          | .ok page =>
            let r := getQueryResultsAQ page
            (.ok
              { message := "Query executed successfully"
                queryExecutionId := qid
                state := s.state
                stateChangeReason := s.reason
                rows := r.rows
                columnMetadata := r.columnMetadata
                rowCount := r.rows.length
                dataScannedInBytes := s.bytesScanned
                executionTimeInMillis := s.millis
                query := query
                database := db }, ⟨1, 1⟩)
        else
          (.ok
            { message := "Query executed successfully"
              queryExecutionId := qid
              state := s.state
              stateChangeReason := s.reason
              rows := []
              columnMetadata := []
              rowCount := 0
              dataScannedInBytes := s.bytesScanned
              executionTimeInMillis := s.millis
              query := query
              database := db }, ⟨1, 0⟩)
      | .failedRun reason _ =>
          (.error (.runtimeError
            ("Query execution failed: " ++ pyStrOfOpt reason)), ⟨1, 0⟩)
      | .cancelledRun _ =>
          (.error (.runtimeError "Query was cancelled"), ⟨1, 0⟩)
      | .timedOut mw el i => (.error (.timeoutError mw el i), ⟨1, 0⟩)
      | .raised e => (.error e, ⟨1, 0⟩)
      | .noResponse => (.error .modelStuck, ⟨1, 0⟩)

/-- Result dict of lambda_enhanced.py's `execute_query`. -/
structure OutcomeE : Type where
  queryExecutionId : String
  state : QState
  stateChangeReason : Option String
  rows : List RowDict
  columnMetadata : List ColDictE
  rowCount : ℕ
  dataScannedInBytes : ℕ
  executionTimeInMillis : ℕ
  database : String
  deriving DecidableEq

/-- `execute_query` of lambda_enhanced.py: as `execute_athena_query`, but
the fetched rows additionally pass through `sanitize_results`. -/
def executeQueryE (cfg : ConfigP) (query : String)
    (databaseArg _outputArg : Option String) (maxWait : ℕ) (eng : Engine) :
    Except PyErr OutcomeE × ExecTrace :=
  let v := validateQueryLE query
  if v.1 = false then (.error (.valueError v.2), ⟨0, 0⟩)
  else
    let db := orDefault databaseArg cfg.databaseName
    match eng.submitResp with
    | .error e => (.error e, ⟨1, 0⟩)
    | .ok qid =>
      match (waitAQ maxWait qid eng.statusResps).res with
      | .completed s _ =>
        if s.state = .succeeded then
          match eng.fetchResp with
          | .error e => (.error e, ⟨1, 1⟩)
          | .ok page =>
            let r := getQueryResultsLE page
            let sanRows := sanitizeResultsLE r.rows r.columnMetadata
            (.ok
              { queryExecutionId := qid
                state := s.state
                stateChangeReason := s.reason
                rows := sanRows
                columnMetadata := r.columnMetadata
                rowCount := sanRows.length
                dataScannedInBytes := s.bytesScanned
                executionTimeInMillis := s.millis
                database := db }, ⟨1, 1⟩)
        else
          (.ok
            { queryExecutionId := qid
              state := s.state
              stateChangeReason := s.reason
              rows := []
              columnMetadata := []
              rowCount := 0
              dataScannedInBytes := s.bytesScanned
              executionTimeInMillis := s.millis
              database := db }, ⟨1, 0⟩)
      | .failedRun reason _ =>
          (.error (.runtimeError
            ("Query execution failed: " ++ pyStrOfOpt reason)), ⟨1, 0⟩)
      | .cancelledRun _ =>
          (.error (.runtimeError "Query was cancelled"), ⟨1, 0⟩)
      | .timedOut mw el i => (.error (.timeoutError mw el i), ⟨1, 0⟩)
      | .raised e => (.error e, ⟨1, 0⟩)
      | .noResponse => (.error .modelStuck, ⟨1, 0⟩)

/-!
## The template catalog of lambda_enhanced.py

`QUERY_TEMPLATES` (lines 61-232).  The SQL texts are carried verbatim up to
whitespace condensation; the weekday-ordering `ORDER BY CASE ... END`
clauses of `sleep_by_day` and `weekly_pattern` (whose branches contain
quoted weekday literals) are elided, as nothing in the sources ever
inspects the text beyond passing it through `validate_query` (which none of
the templates matches, with or without those clauses) and into the engine
call. -/
def queryTemplates : List (String × String) :=
  [("gpa_by_platform",
    "SELECT platform, AVG(gpa) as avg_gpa, AVG(hours_per_day) as avg_hours, COUNT(*) as student_count FROM student_social_media_usage WHERE gpa IS NOT NULL AND hours_per_day IS NOT NULL GROUP BY platform ORDER BY avg_gpa DESC LIMIT 100"),
   ("gpa_vs_hours",
    "SELECT student_id, AVG(hours_per_day) as social_media_hours, AVG(gpa) as gpa FROM student_social_media_usage WHERE gpa IS NOT NULL AND hours_per_day IS NOT NULL GROUP BY student_id LIMIT 500"),
   ("gpa_distribution",
    "SELECT CASE WHEN gpa >= 3.5 THEN 3.5-4.0 ELSE below END as gpa_range, COUNT(*) as student_count, AVG(hours_per_day) as avg_social_media_hours FROM student_social_media_usage WHERE gpa IS NOT NULL GROUP BY 1"),
   ("sleep_vs_stress",
    "SELECT student_id, AVG(sleep_hours) as sleep_hours, AVG(stress_level) as stress_level, AVG(mental_health_score) as mental_health FROM student_sleep_stress WHERE sleep_hours IS NOT NULL AND stress_level IS NOT NULL GROUP BY student_id LIMIT 500"),
   ("sleep_by_day",
    "SELECT day_of_week, AVG(sleep_hours) as avg_sleep, AVG(stress_level) as avg_stress FROM student_sleep_stress WHERE day_of_week IS NOT NULL GROUP BY day_of_week LIMIT 50"),
   ("stress_distribution",
    "SELECT CASE WHEN stress_level >= 8 THEN Very High ELSE Very Low END as stress_category, COUNT(*) as student_count, AVG(sleep_hours) as avg_sleep_hours FROM student_sleep_stress WHERE stress_level IS NOT NULL GROUP BY 1"),
   ("platform_usage",
    "SELECT platform, AVG(hours_per_day) as avg_hours, MIN(hours_per_day) as min_hours, MAX(hours_per_day) as max_hours, COUNT(DISTINCT student_id) as unique_users FROM student_social_media_usage GROUP BY platform ORDER BY avg_hours DESC LIMIT 50"),
   ("platform_popularity",
    "SELECT platform, COUNT(DISTINCT student_id) as user_count FROM student_social_media_usage GROUP BY platform ORDER BY user_count DESC LIMIT 50"),
   ("weekly_pattern",
    "SELECT day_of_week, AVG(hours_per_day) as avg_daily_hours, COUNT(DISTINCT student_id) as active_users FROM student_social_media_usage GROUP BY day_of_week LIMIT 20"),
   ("mental_health_correlation",
    "SELECT student_id, AVG(hours_per_day) as social_media_hours, AVG(mental_health_score) as mental_health_score FROM student_social_media_usage u JOIN student_mental_health m ON u.student_id = m.student_id GROUP BY student_id LIMIT 500"),
   ("mental_health_by_platform",
    "SELECT platform, AVG(mental_health_score) as avg_mental_health, AVG(hours_per_day) as avg_hours FROM student_social_media_usage WHERE mental_health_score IS NOT NULL GROUP BY platform ORDER BY avg_mental_health DESC LIMIT 50"),
   ("summary_stats",
    "SELECT COUNT(DISTINCT student_id) as total_students, AVG(gpa) as avg_gpa, AVG(hours_per_day) as avg_social_media_hours, AVG(sleep_hours) as avg_sleep_hours, AVG(stress_level) as avg_stress_level FROM student_social_media_usage s LEFT JOIN student_sleep_stress ss ON s.student_id = ss.student_id")]

/-- The keys of `QUERY_TEMPLATES`, in catalog order. -/
def templateKeys : List String := queryTemplates.map (·.1)

/-- The `categories` object of the `GET /queries` response. -/
def categoriesE : List (String × List String) :=
  [("gpa", ["gpa_by_platform", "gpa_vs_hours", "gpa_distribution"]),
   ("sleep_stress", ["sleep_vs_stress", "sleep_by_day", "stress_distribution"]),
   ("platform", ["platform_usage", "platform_popularity", "weekly_pattern"]),
   ("mental_health",
     ["mental_health_correlation", "mental_health_by_platform"]),
   ("summary", ["summary_stats"])]

/-!
## Request envelope, response envelope, routing
-/

/-- One element of a `POST /batch` `queries` array. -/
structure BatchItem : Type where
  type : Option String := none
  query : Option String := none
  deriving DecidableEq

/-- The parsed JSON request body fields the handlers read. -/
structure BodyObj : Type where
  query : Option String := none
  maxWaitTime : Option ℤ := none
  outputLocation : Option String := none
  queries : Option (List BatchItem) := none
  deriving DecidableEq

/-- The `body` member of a Lambda event: absent/`None`, a JSON string
(`isEmpty` records Python falsiness of the raw string, `parsed` is the
outcome `json.loads` would produce on it), or an already-parsed object. -/
inductive BodyIn : Type where
  | absent
  | strBody (isEmpty : Bool) (parsed : Except String BodyObj)
  | dictBody (b : BodyObj)

/-- An HTTP-style response envelope.  `format_response` always wraps the
body with `json.dumps` and (in athena_query.py / lambda_enhanced.py) adds a
constant `isBase64Encoded: False`; both are representational and not
modelled. -/
structure Response (β : Type) : Type where
  statusCode : ℕ
  headers : List (String × String)
  body : β
  deriving DecidableEq

/-- The response headers of lambda_enhanced.py's `format_response`. -/
def headersE : List (String × String) :=
  [("Content-Type", "application/json"),
   ("Access-Control-Allow-Origin", "*"),
   ("Access-Control-Allow-Methods", "POST, GET, OPTIONS"),
   ("Access-Control-Allow-Headers", "Content-Type, Authorization, X-API-Key")]

/-- The response headers of athena_query.py's `format_response`. -/
def headersA : List (String × String) :=
  [("Content-Type", "application/json"),
   ("Access-Control-Allow-Origin", "*"),
   ("Access-Control-Allow-Methods", "POST, GET, OPTIONS"),
   ("Access-Control-Allow-Headers", "Content-Type, Authorization")]

/-- The response headers of index.py's `format_response`. -/
def headersI : List (String × String) :=
  [("Content-Type", "application/json"),
   ("Access-Control-Allow-Origin", "*")]

/-- Python truthiness of an optional string (`None` and `''` are falsy). -/
def truthy (o : Option String) : Option String :=
  match o with
  | some s => if s = "" then none else some s
  | none => none

/-- The message of the `TimeoutError` raised by both pollers:
`f"Query did not complete within {max_wait_time} seconds (elapsed:
{elapsed}s, ID: {query_execution_id})"`. -/
def timeoutMsg (mw : ℕ) (el : ℤ) (id : String) : String :=
  "Query did not complete within " ++ toString mw ++
    " seconds (elapsed: " ++ toString el ++ "s, ID: " ++ id ++ ")"

/-- Python `str(e)` for the modelled exceptions (used where a handler
embeds a caught exception into a response).  For `ClientError` this is a
representative rendering of botocore's format. -/
def errStr : PyErr → String
  | .jsonDecodeError m => m
  | .valueError m => m
  | .runtimeError m => m
  | .timeoutError mw el i => timeoutMsg mw el i
  | .clientError code m =>
      "An error occurred (" ++ code ++ ") when calling the operation: " ++ m
  | .botoCoreError m => m
  | .modelStuck => "unmodelled failure"

/-!
## lambda_enhanced.py: dedicated endpoints, batch, handler (lines 521-737)
-/

/-- Result dict of `handle_template_query`. -/
structure TemplOut : Type where
  message : String
  queryType : String
  outcome : OutcomeE
  deriving DecidableEq

/-- Result dict of `handle_custom_query` (`queryEcho` is the query echoed
back, truncated to 500 characters). -/
structure CustomOut : Type where
  message : String
  queryEcho : String
  outcome : OutcomeE
  deriving DecidableEq

/-- `handle_template_query` (lines 521-533).  The Python rejection message
also appends the list of available types; only its prefix is modelled. -/
def handleTemplateQueryE (cfg : ConfigP) (queryType : String) (maxWait : ℕ)
    (eng : Engine) : Except PyErr TemplOut :=
  match queryTemplates.find? (fun p => p.1 = queryType) with
  | none => .error (.valueError ("Unknown query type: " ++ queryType))
  | some p =>
      (executeQueryE cfg p.2 none none maxWait eng).1.map fun o =>
        { message :=
            "Query type \"" ++ queryType ++ "\" executed successfully"
          queryType := queryType
          outcome := o }

/-- `handle_custom_query` (lines 536-544). -/
def handleCustomQueryE (cfg : ConfigP) (query : String) (maxWait : ℕ)
    (eng : Engine) : Except PyErr CustomOut :=
  (executeQueryE cfg query none none maxWait eng).1.map fun o =>
    { message := "Custom query executed successfully"
      queryEcho := if 500 < query.length then query.take 500 else query
      outcome := o }

/-- The body variants appearing in a batch entry. -/
inductive EntryPayload : Type where
  | templ (t : TemplOut)
  | custom (c : CustomOut)
  | missing (error : String)
  | exn (error : String)
  deriving DecidableEq

/-- One entry of `handle_batch_queries`: `{'index': i+1, 'success': ...,
**result}`.  `success` is Python `'error' not in result`. -/
structure BatchEntry : Type where
  index : ℕ
  success : Bool
  payload : EntryPayload
  deriving DecidableEq

/-- Aggregate returned by `handle_batch_queries`. -/
structure BatchOut : Type where
  message : String
  results : List BatchEntry
  totalQueries : ℕ
  successfulQueries : ℕ
  deriving DecidableEq

/-- One iteration of the `handle_batch_queries` loop, for item `q` at
0-based position `i`: route on the truthiness of `type` then `query`,
catch any exception into a failed entry. -/
def mkEntryE (cfg : ConfigP) (maxWait : ℕ) (eng : Engine) (i : ℕ)
    (q : BatchItem) : BatchEntry :=
  match truthy q.type with
  | some t =>
    match handleTemplateQueryE cfg t maxWait eng with
    | .ok r => ⟨i + 1, true, .templ r⟩
    | .error e => ⟨i + 1, false, .exn (errStr e)⟩
  | none =>
    match truthy q.query with
    | some c =>
      match handleCustomQueryE cfg c maxWait eng with
      | .ok r => ⟨i + 1, true, .custom r⟩
      | .error e => ⟨i + 1, false, .exn (errStr e)⟩
    | none =>
        ⟨i + 1, false,
         .missing ("Query " ++ toString (i + 1) ++ " missing type or query")⟩

/-- `handle_batch_queries` (lines 547-583).  `engs i` is the engine oracle
owned by the `i`-th sub-query (each sub-query holds its own execution
handle). -/
def handleBatchQueriesE (cfg : ConfigP) (queries : List BatchItem)
    (maxWait : ℕ) (engs : ℕ → Engine) : BatchOut :=
  let results := queries.enum.foldl
    (fun acc p => acc ++ [mkEntryE cfg maxWait (engs p.1) p.1 p.2]) []
  { message := "Batch query completed with " ++
      toString (results.countP (·.success)) ++ "/" ++
      toString results.length ++ " successful"
    results := results
    totalQueries := results.length
    successfulQueries := results.countP (·.success) }

/-- The response bodies lambda_enhanced.py's handler can produce.  The
health body's `timestamp` (wall clock) is not modelled. -/
inductive EBody : Type where
  | health (database bucket : String)
  | queriesList (queryTypes : List String)
      (categories : List (String × List String))
  | templOut (t : TemplOut)
  | customOut (c : CustomOut)
  | batchOut (b : BatchOut)
  | notFound (message : String) (availableRoutes : List String)
  | errBody (error message : String)
  | errTypeBody (error message typeName : String)
  deriving DecidableEq

/-- `format_response` of lambda_enhanced.py. -/
def formatResponseE (s : ℕ) (b : EBody) : Response EBody := ⟨s, headersE, b⟩

/-- The `availableRoutes` listing of the 404 response. -/
def availableRoutesE : List String :=
  ["GET  /health", "GET  /queries", "POST /query", "POST /query/{query_type}",
   "POST /batch"]

/-- Body parsing of lambda_enhanced.py lines 616-619: a falsy string or a
falsy body becomes `{}`; a non-empty string is `json.loads`ed. -/
def parseBodyE : BodyIn → Except PyErr BodyObj
  | .absent => .ok {}
  | .dictBody b => .ok b
  | .strBody true _ => .ok {}
  | .strBody false p => p.mapError PyErr.jsonDecodeError

/-- `path.split('/query/')[-1]` for a path known to start with `/query/`:
the suffix after the last non-overlapping occurrence, found by a leftmost
scan.  The `fuel` argument (instantiated with the subject length, which
never runs out first) only makes the recursion structural. -/
def pySplitLastFuel (pat : List Char) : ℕ → List Char → Option (List Char)
  | 0, _ => none
  | _, [] => none
  | fuel + 1, c :: rest =>
    if pat.isPrefixOf (c :: rest) then
      let after := (c :: rest).drop pat.length
      some ((pySplitLastFuel pat fuel after).getD after)
    else pySplitLastFuel pat fuel rest

/-- Last piece of `s.split(pat)` (equals `s` itself when `pat` does not
occur). -/
def pySplitLast (pat : List Char) (s : List Char) : List Char :=
  (pySplitLastFuel pat s.length s).getD s

/-- Lines 631-633 of lambda_enhanced.py: `query_type` is
`path.split('/query/')[-1].strip()` when the path starts with `/query/`,
else `None`. -/
def queryTypeOf (path : String) : Option String :=
  if "/query/".toList.isPrefixOf path.toList then
    some (pyStrip (String.mk (pySplitLast "/query/".toList path.toList)))
  else none

/-- The custom-query, list-queries and 404 arms of the route chain (lines
661-694), reached when neither the batch nor the template arm fired.  The
Python messages quote the word query with apostrophes; the quotes are
elided. -/
def routeTailE (cfg : ConfigP) (method path : String)
    (customQuery : Option String) (maxWait : ℕ) (engs : ℕ → Engine) :
    Except PyErr (ℕ × EBody) :=
  if method = "POST" ∧ (path = "/query" ∨ path = "/query/") then
    match truthy customQuery with
    | none => .error (.valueError "Custom query requires query field in body")
    | some q =>
        (handleCustomQueryE cfg q maxWait (engs 0)).map fun r =>
          (200, .customOut r)
  else if method = "GET" ∧ (path = "/queries" ∨ path = "/queries/") then
    .ok (200, .queriesList templateKeys categoriesE)
  else
    .ok (404,
      .notFound ("Route " ++ method ++ " " ++ path ++ " not found")
        availableRoutesE)

/-- The `try:` block of `lambda_handler` in lambda_enhanced.py (lines
610-694): parse, health check, parameter validation, then the route
chain. -/
def tryE (cfg : ConfigP) (method path : String) (bodyIn : BodyIn)
    (engs : ℕ → Engine) : Except PyErr (ℕ × EBody) :=
  match parseBodyE bodyIn with
  | .error e => .error e
  | .ok body =>
    if method = "GET" ∧ (path = "/health" ∨ path = "/health/") then
      .ok (200, .health cfg.databaseName cfg.s3Bucket)
    else
      let maxWait := body.maxWaitTime.getD cfg.maxWaitTime
      if maxWait < 1 ∨ 900 < maxWait then
        .error (.valueError ("maxWaitTime must be between 1 and 900 seconds, got "
          ++ toString maxWait))
      else if method = "POST" ∧ (path = "/batch" ∨ path = "/batch/") then
        match body.queries.getD [] with
        | [] => .error (.valueError "Batch query requires queries array")
        | q :: qs =>
            .ok (200, .batchOut
              (handleBatchQueriesE cfg (q :: qs) maxWait.toNat engs))
      else
        match truthy (queryTypeOf path) with
        | some t =>
          if method = "POST" ∨ method = "GET" then
            if templateKeys.contains t then
              (handleTemplateQueryE cfg t maxWait.toNat (engs 0)).map fun r =>
                (200, .templOut r)
            else .error (.valueError ("Unknown query type: " ++ t))
          else routeTailE cfg method path body.query maxWait.toNat engs
        | none => routeTailE cfg method path body.query maxWait.toNat engs

/-- The `except` chain of lambda_enhanced.py's `lambda_handler` (lines
696-737).  `ClientError` is not a `BotoCoreError` subclass, so an engine
`ClientError` falls through to the final `except Exception` and becomes a
500. -/
def catchE : PyErr → ℕ × EBody
  | .jsonDecodeError m => (400, .errBody "Invalid JSON" m)
  | .valueError m => (400, .errBody "Invalid request" m)
  | .timeoutError mw el i => (408, .errBody "Query timeout" (timeoutMsg mw el i))
  | .runtimeError m => (400, .errBody "Query execution failed" m)
  | .botoCoreError _ =>
      (500, .errBody "Service error"
        "An error occurred while processing your request")
  | .clientError _ _ =>
      (500, .errTypeBody "Internal server error" "An unexpected error occurred"
        "ClientError")
  | .modelStuck =>
      (500, .errTypeBody "Internal server error" "An unexpected error occurred"
        "Exception")

/-- `lambda_handler` of lambda_enhanced.py.  `event.get('httpMethod',
'POST')` and `event.get('path', '/query')` supply the defaults. -/
def lambdaHandlerE (cfg : ConfigP) (httpMethod path : Option String)
    (bodyIn : BodyIn) (engs : ℕ → Engine) : Response EBody :=
  match tryE cfg (httpMethod.getD "POST") (path.getD "/query") bodyIn engs with
  | .ok (s, b) => formatResponseE s b
  | .error e => formatResponseE (catchE e).1 (catchE e).2

/-!
## index.py: handler (lines 11-166)
-/

/-- The environment of index.py, validated inside the handler by
`validate_env_var` (absent or empty values raise `ValueError`). -/
structure ConfigI : Type where
  databaseName : Option String := some "student_db"
  s3Bucket : Option String := some "bucket"
  resultsPath : Option String := none

/-- `validate_env_var` of index.py (the Python message quotes the variable
name with apostrophes; the quotes are elided). -/
def validateEnvVar (name : String) (v : Option String) : Except PyErr String :=
  match v with
  | some s =>
      if s = "" then
        .error (.valueError
          ("Required environment variable " ++ name ++ " is not set"))
      else .ok s
  | none =>
      .error (.valueError
        ("Required environment variable " ++ name ++ " is not set"))

/-- Body parsing of index.py lines 33-36 and athena_query.py lines 471-475:
a string body is always `json.loads`ed (the empty string raises
`JSONDecodeError`), any other falsy body becomes `{}`. -/
def parseBodyI : BodyIn → Except PyErr BodyObj
  | .absent => .ok {}
  | .dictBody b => .ok b
  | .strBody true _ => .error (.jsonDecodeError "Expecting value")
  | .strBody false p => p.mapError PyErr.jsonDecodeError

/-- The response bodies index.py's handler can produce.  In the 200 body the
two statistics fields are always 0: the handler reads them from
`query_status.get('Statistics', {})`, but `wait_for_query_completion`
returned `execution['Status']`, which never carries a `Statistics` key. -/
inductive IBody : Type where
  | okBody (message : String) (queryExecutionId : String) (state : QState)
      (rows : List (List (String × String))) (columnMetadata : List ColMetaI)
      (rowCount : ℕ) (dataScannedInBytes executionTimeInMillis : ℕ)
  | errBody (error message : String)
  | failBody (error : String) (queryExecutionId : String) (reason : String)
      (state : QState)
  | cancelBody (error : String) (queryExecutionId : String) (state : QState)
  | codeBody (error code message : String)
  | typeBody (error typeName message : String)
  deriving DecidableEq

/-- `format_response` of index.py. -/
def formatResponseI (s : ℕ) (b : IBody) : Response IBody := ⟨s, headersI, b⟩

/-- The `try:` block of index.py's `handler` (lines 26-109), paired with the
engine-call counts. -/
def tryI (cfg : ConfigI) (bodyIn : BodyIn) (eng : Engine) :
    Except PyErr (ℕ × IBody) × ExecTrace :=
  match validateEnvVar "DATABASE_NAME" cfg.databaseName with
  | .error e => (.error e, ⟨0, 0⟩)
  | .ok _database =>
  match validateEnvVar "S3_BUCKET" cfg.s3Bucket with
  | .error e => (.error e, ⟨0, 0⟩)
  | .ok _bucket =>
  match parseBodyI bodyIn with
  | .error e => (.error e, ⟨0, 0⟩)
  | .ok body =>
    let query := pyStrip (body.query.getD "")
    let maxWait := body.maxWaitTime.getD 60
    if query = "" then
      (.ok (400, .errBody "Invalid input"
        "Query parameter is required and cannot be empty"), ⟨0, 0⟩)
    else if 262144 < query.length then
      (.ok (400, .errBody "Query too large"
        ("Query size " ++ toString query.length ++
          " bytes exceeds maximum of 262144 bytes")), ⟨0, 0⟩)
    else if maxWait < 1 ∨ 900 < maxWait then
      (.ok (400, .errBody "Invalid maxWaitTime"
        "maxWaitTime must be between 1 and 900 seconds"), ⟨0, 0⟩)
    else
      match eng.submitResp with
      | .error e => (.error e, ⟨1, 0⟩)
      | .ok qid =>
        match (waitIdx maxWait.toNat qid eng.statusResps).res with
        | .done s _ =>
          if s.state = .failed then
            (.ok (400, .failBody "Query execution failed" qid
              (s.reason.getD "Unknown error") s.state), ⟨1, 0⟩)
          else if s.state = .cancelled then
            (.ok (400, .cancelBody "Query was cancelled" qid s.state), ⟨1, 0⟩)
          else
            match eng.fetchResp with
            | .error e => (.error e, ⟨1, 1⟩)
            | .ok page =>
              let r := getQueryResultsIdx page
              (.ok (200, .okBody "Query executed successfully" qid s.state
                r.rows r.columnMetadata r.rows.length 0 0), ⟨1, 1⟩)
        | .timedOut mw el i => (.error (.timeoutError mw el i), ⟨1, 0⟩)
        | .raised e => (.error e, ⟨1, 0⟩)
        | .noResponse => (.error .modelStuck, ⟨1, 0⟩)

/-- The `except` chain of index.py's `handler` (lines 111-166):
`TimeoutError`, `ClientError` (with the four-way code mapping),
`JSONDecodeError`, `ValueError`, `Exception`. -/
def catchI : PyErr → ℕ × IBody
  | .timeoutError mw el i => (408, .errBody "Query timeout" (timeoutMsg mw el i))
  | .clientError code m =>
      if code = "InvalidRequestException" then
        (400, .codeBody "Invalid request" code m)
      else if code = "AccessDeniedException" then
        (403, .codeBody "Access denied" code m)
      else if code = "ThrottlingException" then
        (429, .codeBody "Rate limited" code m)
      else if code = "InternalServerException" then
        (503, .codeBody "Service unavailable" code m)
      else (500, .codeBody code code m)
  | .jsonDecodeError m =>
      (400, .errBody "Invalid JSON" ("Failed to parse request body: " ++ m))
  | .valueError m => (400, .errBody "Invalid parameter" m)
  | .runtimeError m => (500, .typeBody "Unexpected error" "RuntimeError" m)
  | .botoCoreError m => (500, .typeBody "Unexpected error" "BotoCoreError" m)
  | .modelStuck =>
      (500, .typeBody "Unexpected error" "Exception" "unmodelled failure")

/-- `handler` of index.py, with the engine-call counts exposed. -/
def handlerI (cfg : ConfigI) (bodyIn : BodyIn) (eng : Engine) :
    Response IBody × ExecTrace :=
  match tryI cfg bodyIn eng with
  | (.ok (s, b), tr) => (formatResponseI s b, tr)
  | (.error e, tr) => (formatResponseI (catchI e).1 (catchI e).2, tr)

/-!
## athena_query.py: handler (lines 455-540)
-/

/-- The response bodies athena_query.py's handler can produce. -/
inductive ABody : Type where
  | okBody (o : OutcomeA)
  | errBody (error message : String)
  | typeBody (error message typeName : String)
  deriving DecidableEq

/-- `format_response` of athena_query.py. -/
def formatResponseA (s : ℕ) (b : ABody) : Response ABody := ⟨s, headersA, b⟩

/-- The `try:` block of athena_query.py's `lambda_handler` (lines 469-497),
paired with the engine-call counts. -/
def tryA (cfg : ConfigP) (bodyIn : BodyIn) (eng : Engine) :
    Except PyErr (ℕ × ABody) × ExecTrace :=
  match parseBodyI bodyIn with
  | .error e => (.error e, ⟨0, 0⟩)
  | .ok body =>
    let query := pyStrip (body.query.getD "")
    let maxWait := body.maxWaitTime.getD cfg.maxWaitTime
    if maxWait < 1 ∨ 900 < maxWait then
      (.error (.valueError
        ("maxWaitTime must be between 1 and 900 seconds, got " ++
          toString maxWait)), ⟨0, 0⟩)
    else
      match executeAthenaQuery cfg query none body.outputLocation
          maxWait.toNat eng with
      | (.ok o, tr) => (.ok (200, .okBody o), tr)
      | (.error e, tr) => (.error e, tr)

/-- The `except` chain of athena_query.py's `lambda_handler` (lines
499-540): `JSONDecodeError`, `ValueError`, `TimeoutError`, `RuntimeError`,
`BotoCoreError`, `Exception`.  As in lambda_enhanced.py, a `ClientError`
reaches only the final `except Exception` and becomes a 500. -/
def catchA : PyErr → ℕ × ABody
  | .jsonDecodeError m => (400, .errBody "Invalid JSON" m)
  | .valueError m => (400, .errBody "Invalid request" m)
  | .timeoutError mw el i => (408, .errBody "Query timeout" (timeoutMsg mw el i))
  | .runtimeError m => (400, .errBody "Query execution failed" m)
  | .botoCoreError _ =>
      (500, .errBody "Service error"
        "An error occurred while processing your request")
  | .clientError _ _ =>
      (500, .typeBody "Internal server error" "An unexpected error occurred"
        "ClientError")
  | .modelStuck =>
      (500, .typeBody "Internal server error" "An unexpected error occurred"
        "Exception")

/-- `lambda_handler` of athena_query.py, with the engine-call counts
exposed. -/
def handlerA (cfg : ConfigP) (bodyIn : BodyIn) (eng : Engine) :
    Response ABody × ExecTrace :=
  match tryA cfg bodyIn eng with
  | (.ok (s, b), tr) => (formatResponseA s b, tr)
  | (.error e, tr) => (formatResponseA (catchA e).1 (catchA e).2, tr)

/-!
## Concrete inputs and catch-classification used by the claim theorems
-/

def c1Resps : List (Except PyErr StatusObs) :=
  [.ok { state := .running }, .ok { state := .succeeded }]

def c2Resps : List (Except PyErr StatusObs) :=
  [.ok { state := .running }, .ok { state := .running },
   .ok { state := .succeeded }]

def engOk : Engine :=
  { submitResp := .ok "qid"
    statusResps := [.ok { state := .succeeded }]
    fetchResp := .ok {} }

def page5 : RawPage :=
  { columnInfo := [{ name := some "H1" }, { name := some "H2" }]
    rows := [{ data := [{ varCharValue := some "H1" },
                        { varCharValue := some "H2" }] },
             { data := [{ varCharValue := some "a" }] }] }

def c6page : RawPage :=
  { columnInfo := [{ name := some "H1" }, { name := some "H2" }]
    rows := [{ data := [] },
             { data := [{ varCharValue := some "a" },
                        { varCharValue := some "b" }] },
             { data := [{ varCharValue := some "c" },
                        { varCharValue := some "d" }] }] }

def engDenied : Engine :=
  { submitResp := .error (.clientError "AccessDeniedException" "denied")
    statusResps := []
    fetchResp := .ok {} }

def c9items : List BatchItem :=
  [{ query := some "SELECT 1" }, { type := some "unknown_template" },
   { query := some "SELECT 2" }]

/-- The exceptions matched by a named `except` clause (before the final
`except Exception`) in lambda_enhanced.py / athena_query.py. -/
def matchedByNamedE : PyErr → Bool
  | .jsonDecodeError _ => true
  | .valueError _ => true
  | .timeoutError _ _ _ => true
  | .runtimeError _ => true
  | .botoCoreError _ => true
  | _ => false

/-- The exceptions matched by a named `except` clause in index.py. -/
def matchedByNamedI : PyErr → Bool
  | .timeoutError _ _ _ => true
  | .clientError _ _ => true
  | .jsonDecodeError _ => true
  | .valueError _ => true
  | _ => false

/-!
## Theorems
-/

theorem natCast_le_pyInt {d : ℕ} {q : ℚ} (h : (d : ℚ) ≤ q) : (d : ℤ) ≤ pyInt q := by
  have h0 : (0 : ℚ) ≤ q := le_trans (by positivity) h
  rw [pyInt, if_pos h0]
  exact Int.le_floor.mpr (by exact_mod_cast h)

theorem waitAQGo_spec (d : ℕ) (id : String) (L : ℚ) :
    ∀ (resps : List (Except PyErr StatusObs)),
      (∀ s, Except.ok s ∈ resps → 0 ≤ s.latency ∧ s.latency ≤ L) →
      ∀ (elapsed interval : ℚ),
        (∀ s e, (waitAQGo d id resps elapsed interval).res = .completed s e →
            s.state = .succeeded ∧ e < (d : ℚ) + L) ∧
        (∀ r e, (waitAQGo d id resps elapsed interval).res = .failedRun r e →
            e < (d : ℚ) + L) ∧
        (∀ e, (waitAQGo d id resps elapsed interval).res = .cancelledRun e →
            e < (d : ℚ) + L) ∧
        (∀ mw el i, (waitAQGo d id resps elapsed interval).res = .timedOut mw el i →
            mw = d ∧ i = id ∧ (d : ℤ) ≤ el) := by
  intro resps
  induction resps with
  | nil =>
    intro _ elapsed interval
    rw [waitAQGo.eq_def]
    split
    · next hde =>
      refine ⟨by simp, by simp, by simp, ?_⟩
      intro mw el i h
      simp only at h
      cases h
      exact ⟨rfl, rfl, natCast_le_pyInt hde⟩
    · simp
  | cons r rest ih =>
    intro hL elapsed interval
    have hLr : ∀ s, Except.ok s ∈ rest → 0 ≤ s.latency ∧ s.latency ≤ L :=
      fun s hs => hL s (List.mem_cons_of_mem _ hs)
    rw [waitAQGo.eq_def]
    split
    · next hde =>
      refine ⟨by simp, by simp, by simp, ?_⟩
      intro mw el i h
      simp only at h
      cases h
      exact ⟨rfl, rfl, natCast_le_pyInt hde⟩
    · next hde =>
      have helt : elapsed < (d : ℚ) := lt_of_not_le hde
      cases r with
      | error e => dsimp only; simp
      | ok s =>
        have hs := hL s (List.mem_cons_self _ _)
        dsimp only
        split
        · next hsucc =>
          refine ⟨?_, by simp, by simp, by simp⟩
          intro s' e' h
          simp only at h
          cases h
          exact ⟨hsucc, add_lt_add_of_lt_of_le helt hs.2⟩
        · split
          · next hfail =>
            refine ⟨by simp, ?_, by simp, by simp⟩
            intro r' e' h
            simp only at h
            cases h
            exact add_lt_add_of_lt_of_le helt hs.2
          · split
            · next hcan =>
              refine ⟨by simp, by simp, ?_, by simp⟩
              intro e' h
              simp only at h
              cases h
              exact add_lt_add_of_lt_of_le helt hs.2
            · exact ih hLr _ _

theorem waitIdxGo_spec (d : ℕ) (id : String) (L : ℚ) :
    ∀ (resps : List (Except PyErr StatusObs)),
      (∀ s, Except.ok s ∈ resps → 0 ≤ s.latency ∧ s.latency ≤ L) →
      ∀ (elapsed interval : ℚ),
        (∀ s e, (waitIdxGo d id resps elapsed interval).res = .done s e →
            s.state.isTerminal = true ∧ e < (d : ℚ) + L) ∧
        (∀ mw el i, (waitIdxGo d id resps elapsed interval).res = .timedOut mw el i →
            mw = d ∧ i = id ∧ (d : ℤ) ≤ el) := by
  intro resps
  induction resps with
  | nil =>
    intro _ elapsed interval
    rw [waitIdxGo.eq_def]
    split
    · next hde =>
      refine ⟨by simp, ?_⟩
      intro mw el i h
      simp only at h
      cases h
      exact ⟨rfl, rfl, natCast_le_pyInt hde⟩
    · simp
  | cons r rest ih =>
    intro hL elapsed interval
    have hLr : ∀ s, Except.ok s ∈ rest → 0 ≤ s.latency ∧ s.latency ≤ L :=
      fun s hs => hL s (List.mem_cons_of_mem _ hs)
    rw [waitIdxGo.eq_def]
    split
    · next hde =>
      refine ⟨by simp, ?_⟩
      intro mw el i h
      simp only at h
      cases h
      exact ⟨rfl, rfl, natCast_le_pyInt hde⟩
    · next hde =>
      have helt : elapsed < (d : ℚ) := lt_of_not_le hde
      cases r with
      | error e => dsimp only; simp
      | ok s =>
        have hs := hL s (List.mem_cons_self _ _)
        dsimp only
        split
        · next ht =>
          refine ⟨?_, by simp⟩
          intro s' e' h
          simp only at h
          cases h
          exact ⟨ht, add_lt_add_of_lt_of_le helt hs.2⟩
        · exact ih hLr _ _

/-- C1: for every deadline `d ∈ [1, 900]` and every sequence of engine status
responses whose check latencies lie in `[0, L]`, neither poller lets the
cumulative elapsed time at a terminal check exceed `d + L` (every check is
gated by `elapsed < d`), and when the deadline is reached with the observed
state still non-terminal the poller stops with a `TimeoutError` that carries
the deadline, an integer elapsed time that has reached `d`, and the
execution handle. -/
theorem c1_poller_deadline (d : ℕ) (_hd : 1 ≤ d ∧ d ≤ 900) (id : String)
    (L : ℚ) (resps : List (Except PyErr StatusObs))
    (hL : ∀ s, Except.ok s ∈ resps → 0 ≤ s.latency ∧ s.latency ≤ L) :
    (∀ s e, (waitAQ d id resps).res = .completed s e →
        s.state = .succeeded ∧ e ≤ (d : ℚ) + L) ∧
    (∀ r e, (waitAQ d id resps).res = .failedRun r e → e ≤ (d : ℚ) + L) ∧
    (∀ e, (waitAQ d id resps).res = .cancelledRun e → e ≤ (d : ℚ) + L) ∧
    (∀ mw el i, (waitAQ d id resps).res = .timedOut mw el i →
        mw = d ∧ i = id ∧ (d : ℤ) ≤ el) ∧
    (∀ s e, (waitIdx d id resps).res = .done s e →
        s.state.isTerminal = true ∧ e ≤ (d : ℚ) + L) ∧
    (∀ mw el i, (waitIdx d id resps).res = .timedOut mw el i →
        mw = d ∧ i = id ∧ (d : ℤ) ≤ el) := by
  obtain ⟨ha1, ha2, ha3, ha4⟩ := waitAQGo_spec d id L resps hL 0 1
  obtain ⟨hi1, hi2⟩ := waitIdxGo_spec d id L resps hL 0 1
  refine ⟨fun s e h => ?_, fun r e h => ?_, fun e h => ?_, ha4, fun s e h => ?_, hi2⟩
  · exact ⟨(ha1 s e h).1, le_of_lt (ha1 s e h).2⟩
  · exact le_of_lt (ha2 r e h)
  · exact le_of_lt (ha3 e h)
  · exact ⟨(hi1 s e h).1, le_of_lt (hi1 s e h).2⟩

/-- Witness for C1 at `d = 3`, `L = 0`. -/
theorem c1_poller_deadline_witness :
    (∀ s e, (waitAQ 3 "qid" c1Resps).res = .completed s e →
        s.state = .succeeded ∧ e ≤ (3 : ℚ) + 0) ∧
    (∀ r e, (waitAQ 3 "qid" c1Resps).res = .failedRun r e → e ≤ (3 : ℚ) + 0) ∧
    (∀ e, (waitAQ 3 "qid" c1Resps).res = .cancelledRun e → e ≤ (3 : ℚ) + 0) ∧
    (∀ mw el i, (waitAQ 3 "qid" c1Resps).res = .timedOut mw el i →
        mw = 3 ∧ i = "qid" ∧ (3 : ℤ) ≤ el) ∧
    (∀ s e, (waitIdx 3 "qid" c1Resps).res = .done s e →
        s.state.isTerminal = true ∧ e ≤ (3 : ℚ) + 0) ∧
    (∀ mw el i, (waitIdx 3 "qid" c1Resps).res = .timedOut mw el i →
        mw = 3 ∧ i = "qid" ∧ (3 : ℤ) ≤ el) := by
  refine c1_poller_deadline 3 ⟨by norm_num, by norm_num⟩ "qid" 0 c1Resps ?_
  intro s hs
  simp only [c1Resps, List.mem_cons, List.mem_singleton] at hs
  rcases hs with h | h | h
  · cases h; simp
  · cases h; simp
  · simp at h

theorem minMulCap (x : ℚ) :
    min (min x 5 * (3 / 2)) 5 = min (x * (3 / 2)) 5 := by
  rcases le_total x 5 with h | h
  · rw [min_eq_left h]
  · rw [min_eq_right h]
    have h1 : (5 : ℚ) ≤ x * (3 / 2) := by nlinarith
    rw [min_eq_right h1, min_eq_right (by norm_num : (5 : ℚ) ≤ 5 * (3 / 2))]

theorem waitAQGo_backoff (d : ℕ) (id : String) :
    ∀ (resps : List (Except PyErr StatusObs)) (elapsed : ℚ) (k : ℕ)
      (j : ℕ) (ev : SleepEvent),
      (waitAQGo d id resps elapsed (min ((3 / 2 : ℚ) ^ k) 5)).events.get? j =
          some ev →
        ev.backoff = min ((3 / 2 : ℚ) ^ (k + 1 + j)) 5 ∧
        ev.slept = min ev.backoff (ev.remaining : ℚ) := by
  intro resps
  induction resps with
  | nil =>
    intro elapsed k j ev h
    rw [waitAQGo.eq_def] at h
    revert h
    split <;> simp
  | cons r rest ih =>
    intro elapsed k j ev h
    rw [waitAQGo.eq_def] at h
    revert h
    split
    · simp
    · cases r with
      | error e => dsimp only; simp
      | ok s =>
        dsimp only
        split
        · simp
        · split
          · simp
          · split
            · simp
            · intro h
              have hb : min (min ((3 / 2 : ℚ) ^ k) 5 * (3 / 2)) 5 =
                  min ((3 / 2 : ℚ) ^ (k + 1)) 5 := by
                rw [minMulCap _, pow_succ]
              simp only [List.get?] at h
              cases j with
              | zero =>
                simp only [List.get?] at h
                cases h
                constructor
                · simpa [Nat.add_zero] using hb
                · dsimp only
                  split
                  · next hlt =>
                    rw [min_eq_right (le_of_lt hlt)]
                  · next hge =>
                    rw [min_eq_left (le_of_not_lt hge)]
              | succ j' =>
                simp only [List.get?] at h
                have h2 := ih _ (k + 1) j' ev (by rw [← hb]; exact h)
                have hexp : k + 1 + 1 + j' = k + 1 + (j' + 1) := by omega
                rw [hexp] at h2
                exact h2

theorem waitIdxGo_backoff (d : ℕ) (id : String) :
    ∀ (resps : List (Except PyErr StatusObs)) (elapsed : ℚ) (k : ℕ)
      (j : ℕ) (sl : ℚ),
      (waitIdxGo d id resps elapsed (min ((3 / 2 : ℚ) ^ k) 5)).sleeps.get? j =
          some sl →
        sl = min ((3 / 2 : ℚ) ^ (k + 1 + j)) 5 := by
  intro resps
  induction resps with
  | nil =>
    intro elapsed k j sl h
    rw [waitIdxGo.eq_def] at h
    revert h
    split <;> simp
  | cons r rest ih =>
    intro elapsed k j sl h
    rw [waitIdxGo.eq_def] at h
    revert h
    split
    · simp
    · cases r with
      | error e => dsimp only; simp
      | ok s =>
        dsimp only
        split
        · simp
        · intro h
          have hb : min (min ((3 / 2 : ℚ) ^ k) 5 * (3 / 2)) 5 =
              min ((3 / 2 : ℚ) ^ (k + 1)) 5 := by
            rw [minMulCap _, pow_succ]
          simp only [List.get?] at h
          cases j with
          | zero =>
            simp only [List.get?] at h
            cases h
            simpa [Nat.add_zero] using hb
          | succ j' =>
            simp only [List.get?] at h
            have h2 := ih _ (k + 1) j' sl (by rw [← hb]; exact h)
            have hexp : k + 1 + 1 + j' = k + 1 + (j' + 1) := by omega
            rw [hexp] at h2
            exact h2

/-- C2 (amended): the poll interval starts at 1 s but is multiplied by 1.5
(capped at 5) BEFORE each sleep, so the `k`-th backoff is
`min (1.5 ^ (k+1)) 5` — the slept sequence is 1.5, 2.25, 3.375, 5, 5, …,
never 1.  In athena_query.py / lambda_enhanced.py each sleep is additionally
clamped to `remaining = deadline - int(elapsed)` when that is smaller
(`slept = min backoff remaining`); index.py performs no such clamping and
always sleeps the full capped backoff.  The backoff sequence is
monotonically non-decreasing and capped at 5. -/
theorem c2_backoff_amended (d : ℕ) (id : String)
    (resps : List (Except PyErr StatusObs)) :
    (∀ j ev, (waitAQ d id resps).events.get? j = some ev →
        ev.backoff = min ((3 / 2 : ℚ) ^ (j + 1)) 5 ∧
        ev.slept = min ev.backoff (ev.remaining : ℚ) ∧
        ev.backoff ≤ 5) ∧
    (∀ j j' ev ev', (waitAQ d id resps).events.get? j = some ev →
        (waitAQ d id resps).events.get? j' = some ev' → j ≤ j' →
        ev.backoff ≤ ev'.backoff) ∧
    (∀ j sl, (waitIdx d id resps).sleeps.get? j = some sl →
        sl = min ((3 / 2 : ℚ) ^ (j + 1)) 5) := by
  have h1 : (1 : ℚ) = min ((3 / 2 : ℚ) ^ 0) 5 := by norm_num
  have hA : ∀ j ev, (waitAQ d id resps).events.get? j = some ev →
      ev.backoff = min ((3 / 2 : ℚ) ^ (j + 1)) 5 ∧
      ev.slept = min ev.backoff (ev.remaining : ℚ) := by
    intro j ev h
    have := waitAQGo_backoff d id resps 0 0 j ev (by rw [← h1]; exact h)
    simpa [Nat.add_comm] using this
  refine ⟨fun j ev h => ⟨(hA j ev h).1, (hA j ev h).2, ?_⟩,
    fun j j' ev ev' h h' hj => ?_, fun j sl h => ?_⟩
  · rw [(hA j ev h).1]; exact min_le_right _ _
  · rw [(hA j ev h).1, (hA j' ev' h').1]
    exact min_le_min (pow_le_pow_right₀ (by norm_num) (by omega)) le_rfl
  · have := waitIdxGo_backoff d id resps 0 0 j sl (by rw [← h1]; exact h)
    simpa [Nat.add_comm] using this

/-- Counterexample to C2 as stated. -/
theorem c2_backoff_counterexample :
    ((waitAQ 30 "qid" c2Resps).events.map (·.slept)) = [3 / 2, 9 / 4] ∧
    ((3 / 2 : ℚ) = 1 → False) ∧
    (waitIdx 2 "qid" c2Resps).sleeps = [3 / 2, 9 / 4] ∧
    ((9 / 4 : ℚ) ≤ 2 - (3 / 2) → False) := by
  refine ⟨?_, by norm_num, ?_, by norm_num⟩
  · simp only [waitAQ, waitAQGo, c2Resps]
    norm_num [pyInt]
    try simp
  · simp only [waitIdx, waitIdxGo, c2Resps]
    norm_num [pyInt, QState.isTerminal]
    try simp

/-- Witness for the amended C2. -/
theorem c2_backoff_amended_witness :
    ((waitAQ 30 "qid" c2Resps).events.get? 0 =
        some { backoff := 3 / 2, remaining := 30, slept := 3 / 2 }) ∧
    ({ backoff := 3 / 2, remaining := 30, slept := 3 / 2 : SleepEvent }.backoff =
        min ((3 / 2 : ℚ) ^ (0 + 1)) 5 ∧
      { backoff := 3 / 2, remaining := 30, slept := 3 / 2 : SleepEvent }.slept =
        min ({ backoff := 3 / 2, remaining := 30, slept := 3 / 2 :
          SleepEvent }.backoff)
          (({ backoff := 3 / 2, remaining := 30, slept := 3 / 2 :
            SleepEvent }.remaining : ℚ)) ∧
      { backoff := 3 / 2, remaining := 30, slept := 3 / 2 : SleepEvent }.backoff
        ≤ 5) := by
  have hget : (waitAQ 30 "qid" c2Resps).events.get? 0 =
      some { backoff := 3 / 2, remaining := 30, slept := 3 / 2 } := by
    simp only [waitAQ, waitAQGo, c2Resps]
    norm_num [pyInt]
    try simp
  exact ⟨hget, (c2_backoff_amended 30 "qid" c2Resps).1 0 _ hget⟩

theorem waitAQGo_completed_state (d : ℕ) (id : String) :
    ∀ (resps : List (Except PyErr StatusObs)) (elapsed interval : ℚ)
      (s : StatusObs) (e : ℚ),
      (waitAQGo d id resps elapsed interval).res = .completed s e →
        s.state = .succeeded := by
  intro resps
  induction resps with
  | nil =>
    intro elapsed interval s e h
    rw [waitAQGo.eq_def] at h
    revert h
    split <;> simp
  | cons r rest ih =>
    intro elapsed interval s e h
    rw [waitAQGo.eq_def] at h
    revert h
    split
    · simp
    · cases r with
      | error e2 => dsimp only; simp
      | ok s2 =>
        dsimp only
        split
        · next hsucc =>
          intro h
          simp only at h
          cases h
          exact hsucc
        · split
          · simp
          · split
            · simp
            · exact fun h => ih _ _ _ _ h

theorem waitIdxGo_done_state (d : ℕ) (id : String) :
    ∀ (resps : List (Except PyErr StatusObs)) (elapsed interval : ℚ)
      (s : StatusObs) (e : ℚ),
      (waitIdxGo d id resps elapsed interval).res = .done s e →
        s.state.isTerminal = true := by
  intro resps
  induction resps with
  | nil =>
    intro elapsed interval s e h
    rw [waitIdxGo.eq_def] at h
    revert h
    split <;> simp
  | cons r rest ih =>
    intro elapsed interval s e h
    rw [waitIdxGo.eq_def] at h
    revert h
    split
    · simp
    · cases r with
      | error e2 => dsimp only; simp
      | ok s2 =>
        dsimp only
        split
        · next ht =>
          intro h
          simp only at h
          cases h
          exact ht
        · exact fun h => ih _ _ _ _ h

theorem executeAthenaQuery_spec (cfg : ConfigP) (query : String)
    (dbArg outArg : Option String) (d : ℕ) (eng : Engine) :
    (∀ o, (executeAthenaQuery cfg query dbArg outArg d eng).1 = .ok o →
        o.state = .succeeded) ∧
    ((executeAthenaQuery cfg query dbArg outArg d eng).2.fetches = 1 ↔
      ((validateQueryAQ query).1 = true ∧ ∃ qid s e,
        eng.submitResp = .ok qid ∧
        (waitAQ d qid eng.statusResps).res = .completed s e)) := by
  cases hv : (validateQueryAQ query).1 with
  | false =>
    constructor
    · intro o h
      simp [executeAthenaQuery, hv] at h
    · simp [executeAthenaQuery, hv]
  | true =>
    cases hsub : eng.submitResp with
    | error e =>
      constructor
      · intro o h
        simp [executeAthenaQuery, hv, hsub] at h
      · simp [executeAthenaQuery, hv, hsub]
    | ok qid =>
      cases hw : (waitAQ d qid eng.statusResps).res with
      | completed s e =>
        have hst : s.state = .succeeded :=
          waitAQGo_completed_state _ _ _ _ _ _ _ hw
        cases hf : eng.fetchResp with
        | error e2 =>
          constructor
          · intro o h
            simp [executeAthenaQuery, hv, hsub, hw, hst, hf] at h
          · simp [executeAthenaQuery, hv, hsub, hw, hst, hf]
        | ok page =>
          constructor
          · intro o h
            simp [executeAthenaQuery, hv, hsub, hw, hst, hf] at h
            rw [← h]
          · simp [executeAthenaQuery, hv, hsub, hw, hst, hf]
      | failedRun r e =>
        constructor
        · intro o h
          simp [executeAthenaQuery, hv, hsub, hw] at h
        · simp [executeAthenaQuery, hv, hsub, hw]
      | cancelledRun e =>
        constructor
        · intro o h
          simp [executeAthenaQuery, hv, hsub, hw] at h
        · simp [executeAthenaQuery, hv, hsub, hw]
      | timedOut mw el i =>
        constructor
        · intro o h
          simp [executeAthenaQuery, hv, hsub, hw] at h
        · simp [executeAthenaQuery, hv, hsub, hw]
      | raised e =>
        constructor
        · intro o h
          simp [executeAthenaQuery, hv, hsub, hw] at h
        · simp [executeAthenaQuery, hv, hsub, hw]
      | noResponse =>
        constructor
        · intro o h
          simp [executeAthenaQuery, hv, hsub, hw] at h
        · simp [executeAthenaQuery, hv, hsub, hw]

theorem executeQueryE_spec (cfg : ConfigP) (query : String)
    (dbArg outArg : Option String) (d : ℕ) (eng : Engine) :
    (∀ o, (executeQueryE cfg query dbArg outArg d eng).1 = .ok o →
        o.state = .succeeded) ∧
    ((executeQueryE cfg query dbArg outArg d eng).2.fetches = 1 ↔
      ((validateQueryLE query).1 = true ∧ ∃ qid s e,
        eng.submitResp = .ok qid ∧
        (waitAQ d qid eng.statusResps).res = .completed s e)) := by
  cases hv : (validateQueryLE query).1 with
  | false =>
    constructor
    · intro o h
      simp [executeQueryE, hv] at h
    · simp [executeQueryE, hv]
  | true =>
    cases hsub : eng.submitResp with
    | error e =>
      constructor
      · intro o h
        simp [executeQueryE, hv, hsub] at h
      · simp [executeQueryE, hv, hsub]
    | ok qid =>
      cases hw : (waitAQ d qid eng.statusResps).res with
      | completed s e =>
        have hst : s.state = .succeeded :=
          waitAQGo_completed_state _ _ _ _ _ _ _ hw
        cases hf : eng.fetchResp with
        | error e2 =>
          constructor
          · intro o h
            simp [executeQueryE, hv, hsub, hw, hst, hf] at h
          · simp [executeQueryE, hv, hsub, hw, hst, hf]
        | ok page =>
          constructor
          · intro o h
            simp [executeQueryE, hv, hsub, hw, hst, hf] at h
            rw [← h]
          · simp [executeQueryE, hv, hsub, hw, hst, hf]
      | failedRun r e =>
        constructor
        · intro o h
          simp [executeQueryE, hv, hsub, hw] at h
        · simp [executeQueryE, hv, hsub, hw]
      | cancelledRun e =>
        constructor
        · intro o h
          simp [executeQueryE, hv, hsub, hw] at h
        · simp [executeQueryE, hv, hsub, hw]
      | timedOut mw el i =>
        constructor
        · intro o h
          simp [executeQueryE, hv, hsub, hw] at h
        · simp [executeQueryE, hv, hsub, hw]
      | raised e =>
        constructor
        · intro o h
          simp [executeQueryE, hv, hsub, hw] at h
        · simp [executeQueryE, hv, hsub, hw]
      | noResponse =>
        constructor
        · intro o h
          simp [executeQueryE, hv, hsub, hw] at h
        · simp [executeQueryE, hv, hsub, hw]

theorem tryI_spec (cfgI : ConfigI) (bodyIn : BodyIn) (eng : Engine) :
    (∀ st msg qid st2 rows cm rc x y,
        (tryI cfgI bodyIn eng).1 = .ok (st, .okBody msg qid st2 rows cm rc x y) →
        st2 = .succeeded) ∧
    (∀ body, parseBodyI bodyIn = .ok body →
      ∀ db, validateEnvVar "DATABASE_NAME" cfgI.databaseName = .ok db →
      ∀ bk, validateEnvVar "S3_BUCKET" cfgI.s3Bucket = .ok bk →
      pyStrip (body.query.getD "") ≠ "" →
      ¬ 262144 < (pyStrip (body.query.getD "")).length →
      ¬ (body.maxWaitTime.getD 60 < 1 ∨ 900 < body.maxWaitTime.getD 60) →
      ((tryI cfgI bodyIn eng).2.fetches = 1 ↔
        ∃ qid s e, eng.submitResp = .ok qid ∧
          (waitIdx (body.maxWaitTime.getD 60).toNat qid eng.statusResps).res
            = .done s e ∧ s.state ≠ .failed ∧ s.state ≠ .cancelled)) := by
  cases he1 : validateEnvVar "DATABASE_NAME" cfgI.databaseName with
  | error e =>
    constructor
    · intro st msg qid st2 rows cm rc x y h
      simp [tryI, he1] at h
    · intro body hb db hdb
      simp at hdb
  | ok db =>
    cases he2 : validateEnvVar "S3_BUCKET" cfgI.s3Bucket with
    | error e =>
      constructor
      · intro st msg qid st2 rows cm rc x y h
        simp [tryI, he1, he2] at h
      · intro body hb db2 hdb bk hbk
        simp at hbk
    | ok bk =>
      cases hp : parseBodyI bodyIn with
      | error e =>
        constructor
        · intro st msg qid st2 rows cm rc x y h
          simp [tryI, he1, he2, hp] at h
        · intro body hb
          simp at hb
      | ok body =>
        by_cases hq : pyStrip (body.query.getD "") = ""
        · constructor
          · intro st msg qid st2 rows cm rc x y h
            simp [tryI, he1, he2, hp, hq] at h
          · intro body' hb
            injection hb with hb
            subst hb
            intro db2 _ bk2 _ hq2
            exact absurd hq hq2
        · by_cases hlen : 262144 < (pyStrip (body.query.getD "")).length
          · constructor
            · intro st msg qid st2 rows cm rc x y h
              simp [tryI, he1, he2, hp, hq, hlen] at h
            · intro body' hb
              injection hb with hb
              subst hb
              intro db2 _ bk2 _ _ hlen2
              exact absurd hlen hlen2
          · by_cases hrange :
                body.maxWaitTime.getD 60 < 1 ∨ 900 < body.maxWaitTime.getD 60
            · constructor
              · intro st msg qid st2 rows cm rc x y h
                simp [tryI, he1, he2, hp, hq, hlen, hrange] at h
              · intro body' hb
                injection hb with hb
                subst hb
                intro db2 _ bk2 _ _ _ hr2
                exact absurd hrange hr2
            · cases hsub : eng.submitResp with
              | error e =>
                constructor
                · intro st msg qid st2 rows cm rc x y h
                  simp [tryI, he1, he2, hp, hq, hlen, hrange, hsub] at h
                · intro body' hb
                  injection hb with hb
                  subst hb
                  intro db2 _ bk2 _ _ _ _
                  simp [tryI, he1, he2, hp, hq, hlen, hrange, hsub]
              | ok qid =>
                cases hw : (waitIdx (body.maxWaitTime.getD 60).toNat qid
                    eng.statusResps).res with
                | done s e =>
                  have hterm : s.state.isTerminal = true :=
                    waitIdxGo_done_state _ _ _ _ _ _ _ hw
                  by_cases hfail : s.state = .failed
                  · constructor
                    · intro st msg qid2 st2 rows cm rc x y h
                      simp [tryI, he1, he2, hp, hq, hlen, hrange, hsub, hw,
                        hfail] at h
                    · intro body' hb
                      injection hb with hb
                      subst hb
                      intro db2 _ bk2 _ _ _ _
                      simp [tryI, he1, he2, hp, hq, hlen, hrange, hsub, hw,
                        hfail]
                  · by_cases hcan : s.state = .cancelled
                    · constructor
                      · intro st msg qid2 st2 rows cm rc x y h
                        simp [tryI, he1, he2, hp, hq, hlen, hrange, hsub, hw,
                          hfail, hcan] at h
                      · intro body' hb
                        injection hb with hb
                        subst hb
                        intro db2 _ bk2 _ _ _ _
                        simp [tryI, he1, he2, hp, hq, hlen, hrange, hsub, hw,
                          hfail, hcan]
                    · have hsucc : s.state = .succeeded := by
                        cases hst : s.state <;>
                          simp [hst, QState.isTerminal] at hterm hfail hcan ⊢
                      cases hf : eng.fetchResp with
                      | error e2 =>
                        constructor
                        · intro st msg qid2 st2 rows cm rc x y h
                          simp [tryI, he1, he2, hp, hq, hlen, hrange, hsub, hw,
                            hfail, hcan, hf] at h
                        · intro body' hb
                          injection hb with hb
                          subst hb
                          intro db2 _ bk2 _ _ _ _
                          constructor
                          · intro _
                            exact ⟨qid, s, e, rfl, hw, hfail, hcan⟩
                          · intro _
                            simp [tryI, he1, he2, hp, hq, hlen, hrange, hsub,
                              hw, hfail, hcan, hf]
                      | ok page =>
                        constructor
                        · intro st msg qid2 st2 rows cm rc x y h
                          simp [tryI, he1, he2, hp, hq, hlen, hrange, hsub, hw,
                            hfail, hcan, hf] at h
                          rw [← h.2.2.2.1]
                          exact hsucc
                        · intro body' hb
                          injection hb with hb
                          subst hb
                          intro db2 _ bk2 _ _ _ _
                          constructor
                          · intro _
                            exact ⟨qid, s, e, rfl, hw, hfail, hcan⟩
                          · intro _
                            simp [tryI, he1, he2, hp, hq, hlen, hrange, hsub,
                              hw, hfail, hcan, hf]
                | timedOut mw el i =>
                  constructor
                  · intro st msg qid2 st2 rows cm rc x y h
                    simp [tryI, he1, he2, hp, hq, hlen, hrange, hsub, hw] at h
                  · intro body' hb
                    injection hb with hb
                    subst hb
                    intro db2 _ bk2 _ _ _ _
                    simp [tryI, he1, he2, hp, hq, hlen, hrange, hsub, hw]
                | raised e =>
                  constructor
                  · intro st msg qid2 st2 rows cm rc x y h
                    simp [tryI, he1, he2, hp, hq, hlen, hrange, hsub, hw] at h
                  · intro body' hb
                    injection hb with hb
                    subst hb
                    intro db2 _ bk2 _ _ _ _
                    simp [tryI, he1, he2, hp, hq, hlen, hrange, hsub, hw]
                | noResponse =>
                  constructor
                  · intro st msg qid2 st2 rows cm rc x y h
                    simp [tryI, he1, he2, hp, hq, hlen, hrange, hsub, hw] at h
                  · intro body' hb
                    injection hb with hb
                    subst hb
                    intro db2 _ bk2 _ _ _ _
                    simp [tryI, he1, he2, hp, hq, hlen, hrange, hsub, hw]

/-- C3: every outcome returned by `execute_athena_query` /
`execute_query` has state SUCCEEDED (hence its row list is empty whenever
the state is not SUCCEEDED), `get_query_results` is invoked exactly when
validation, submission and polling all ended in a SUCCEEDED terminal check
— never after a timeout, FAILED, or CANCELLED — and index.py's handler
likewise produces a rows body only for SUCCEEDED and fetches exactly when
polling returned a terminal state that is neither FAILED nor CANCELLED. -/
theorem c3_rows_only_on_success (cfg : ConfigP) (cfgI : ConfigI)
    (query : String) (dbArg outArg : Option String) (d : ℕ) (eng : Engine)
    (bodyIn : BodyIn) :
    (∀ o, (executeAthenaQuery cfg query dbArg outArg d eng).1 = .ok o →
        o.state = .succeeded ∧ (o.state ≠ .succeeded → o.rows = [])) ∧
    ((executeAthenaQuery cfg query dbArg outArg d eng).2.fetches = 1 ↔
      ((validateQueryAQ query).1 = true ∧ ∃ qid s e,
        eng.submitResp = .ok qid ∧
        (waitAQ d qid eng.statusResps).res = .completed s e)) ∧
    (∀ qid s e, (waitAQ d qid eng.statusResps).res = .completed s e →
        s.state = .succeeded) ∧
    (∀ o, (executeQueryE cfg query dbArg outArg d eng).1 = .ok o →
        o.state = .succeeded ∧ (o.state ≠ .succeeded → o.rows = [])) ∧
    ((executeQueryE cfg query dbArg outArg d eng).2.fetches = 1 ↔
      ((validateQueryLE query).1 = true ∧ ∃ qid s e,
        eng.submitResp = .ok qid ∧
        (waitAQ d qid eng.statusResps).res = .completed s e)) ∧
    (∀ st msg qid st2 rows cm rc x y,
        (tryI cfgI bodyIn eng).1 = .ok (st, .okBody msg qid st2 rows cm rc x y) →
        st2 = .succeeded) ∧
    (∀ body, parseBodyI bodyIn = .ok body →
      ∀ db, validateEnvVar "DATABASE_NAME" cfgI.databaseName = .ok db →
      ∀ bk, validateEnvVar "S3_BUCKET" cfgI.s3Bucket = .ok bk →
      pyStrip (body.query.getD "") ≠ "" →
      ¬ 262144 < (pyStrip (body.query.getD "")).length →
      ¬ (body.maxWaitTime.getD 60 < 1 ∨ 900 < body.maxWaitTime.getD 60) →
      ((tryI cfgI bodyIn eng).2.fetches = 1 ↔
        ∃ qid s e, eng.submitResp = .ok qid ∧
          (waitIdx (body.maxWaitTime.getD 60).toNat qid eng.statusResps).res
            = .done s e ∧ s.state ≠ .failed ∧ s.state ≠ .cancelled)) := by
  obtain ⟨ha1, ha2⟩ := executeAthenaQuery_spec cfg query dbArg outArg d eng
  obtain ⟨he1, he2⟩ := executeQueryE_spec cfg query dbArg outArg d eng
  obtain ⟨hi1, hi2⟩ := tryI_spec cfgI bodyIn eng
  exact ⟨fun o h => ⟨ha1 o h, fun hn => absurd (ha1 o h) hn⟩, ha2,
    fun qid s e h => waitAQGo_completed_state _ _ _ _ _ _ _ h,
    fun o h => ⟨he1 o h, fun hn => absurd (he1 o h) hn⟩, he2, hi1, hi2⟩

/-- Witness for C3: a concrete succeeded run fetches results exactly once. -/
theorem c3_rows_only_on_success_witness :
    (executeAthenaQuery {} "SELECT 1" none none 30 engOk).2.fetches = 1 ∧
    (executeQueryE {} "SELECT 1" none none 30 engOk).2.fetches = 1 := by
  have hw : (waitAQ 30 "qid" engOk.statusResps).res =
      .completed { state := .succeeded } 0 := by
    simp only [waitAQ, waitAQGo, engOk]
    norm_num
  have h := c3_rows_only_on_success {} {} "SELECT 1" none none 30 engOk .absent
  refine ⟨h.2.1.mpr ⟨by decide, "qid", _, 0, rfl, hw⟩,
    h.2.2.2.2.1.mpr ⟨by decide, "qid", _, 0, rfl, hw⟩⟩

theorem validateQueryWith_match (pats : List (String × List PatElem))
    (query : String) (hne : query ≠ "")
    (hlen : ¬ 262144 < (pyStrip query).length)
    (hm : ∃ p ∈ pats, reSearchCI p.2 (pyStrip query) = true) :
    (validateQueryWith pats query).1 = false ∧
    ∃ p ∈ pats, reSearchCI p.2 (pyStrip query) = true ∧
      (validateQueryWith pats query).2 =
        "Query contains disallowed pattern: " ++ p.1 := by
  have hsome : (pats.find? (fun p => reSearchCI p.2 (pyStrip query))).isSome := by
    rw [List.find?_isSome]
    obtain ⟨p, hp, hf⟩ := hm
    exact ⟨p, hp, hf⟩
  obtain ⟨y, hy⟩ := Option.isSome_iff_exists.mp hsome
  have hyp : reSearchCI y.2 (pyStrip query) = true := by
    have h := List.find?_some hy
    simpa using h
  have hym : y ∈ pats := List.mem_of_find?_eq_some hy
  simp only [validateQueryWith]
  rw [if_neg hne, if_neg hlen, hy]
  exact ⟨rfl, y, hym, hyp, rfl⟩

/-- C4 (amended): a query that is empty, oversized, or matches a denylist
pattern is rejected before any submission call (submit count 0) with the
offending pattern named — for lambda_enhanced.py against its full ten-entry
denylist including `EXEC\s+`, but for athena_query.py only against its
nine-entry denylist, which lacks the `exec` pattern; index.py (see the
counterexample) applies no denylist at all. -/
theorem c4_validator_amended (query : String) (cfg : ConfigP)
    (dbArg outArg : Option String) (d : ℕ) (eng : Engine) :
    ((∃ p ∈ dangerousPatternsLE, reSearchCI p.2 (pyStrip query) = true) →
      query ≠ "" → ¬ 262144 < (pyStrip query).length →
      (validateQueryLE query).1 = false ∧
      (∃ p ∈ dangerousPatternsLE, reSearchCI p.2 (pyStrip query) = true ∧
        (validateQueryLE query).2 =
          "Query contains disallowed pattern: " ++ p.1) ∧
      (executeQueryE cfg query dbArg outArg d eng).2.submits = 0) ∧
    ((∃ p ∈ dangerousPatternsAQ, reSearchCI p.2 (pyStrip query) = true) →
      query ≠ "" → ¬ 262144 < (pyStrip query).length →
      (validateQueryAQ query).1 = false ∧
      (∃ p ∈ dangerousPatternsAQ, reSearchCI p.2 (pyStrip query) = true ∧
        (validateQueryAQ query).2 =
          "Query contains disallowed pattern: " ++ p.1) ∧
      (executeAthenaQuery cfg query dbArg outArg d eng).2.submits = 0) ∧
    (query = "" →
      (validateQueryLE query).1 = false ∧ (validateQueryAQ query).1 = false ∧
      (executeQueryE cfg query dbArg outArg d eng).2.submits = 0 ∧
      (executeAthenaQuery cfg query dbArg outArg d eng).2.submits = 0) ∧
    (262144 < (pyStrip query).length → query ≠ "" →
      (validateQueryLE query).1 = false ∧ (validateQueryAQ query).1 = false ∧
      (executeQueryE cfg query dbArg outArg d eng).2.submits = 0 ∧
      (executeAthenaQuery cfg query dbArg outArg d eng).2.submits = 0) := by
  refine ⟨?_, ?_, ?_, ?_⟩
  · intro hm hne hlen
    obtain ⟨h1, h2⟩ := validateQueryWith_match dangerousPatternsLE query hne hlen hm
    exact ⟨h1, h2, by simp [executeQueryE, validateQueryLE, h1]⟩
  · intro hm hne hlen
    obtain ⟨h1, h2⟩ := validateQueryWith_match dangerousPatternsAQ query hne hlen hm
    exact ⟨h1, h2, by simp [executeAthenaQuery, validateQueryAQ, h1]⟩
  · intro he
    have h1 : (validateQueryLE query).1 = false := by
      rw [validateQueryLE, validateQueryWith, if_pos he]
    have h2 : (validateQueryAQ query).1 = false := by
      rw [validateQueryAQ, validateQueryWith, if_pos he]
    exact ⟨h1, h2, by simp [executeQueryE, h1], by simp [executeAthenaQuery, h2]⟩
  · intro hlen hne
    have h1 : (validateQueryLE query).1 = false := by
      rw [validateQueryLE, validateQueryWith, if_neg hne, if_pos hlen]
    have h2 : (validateQueryAQ query).1 = false := by
      rw [validateQueryAQ, validateQueryWith, if_neg hne, if_pos hlen]
    exact ⟨h1, h2, by simp [executeQueryE, h1], by simp [executeAthenaQuery, h2]⟩

/-- Counterexample to C4 as stated. -/
theorem c4_validator_counterexample :
    reSearchCI [PatElem.lit "exec".toList, PatElem.wsPlus]
      (pyStrip "EXEC sp_who") = true ∧
    validateQueryAQ "EXEC sp_who" = (true, "") ∧
    (executeAthenaQuery {} "EXEC sp_who" none none 30 engOk).2.submits = 1 ∧
    (tryI { databaseName := some "db", s3Bucket := some "b" }
      (.dictBody { query := some "DROP DATABASE students" }) engOk).2.submits
      = 1 := by
  refine ⟨by decide, by decide, ?_, ?_⟩
  · have hv : validateQueryAQ "EXEC sp_who" = (true, "") := by decide
    have hw : (waitAQ 30 "qid" [.ok { state := .succeeded }]).res =
        .completed { state := .succeeded } 0 := by
      simp only [waitAQ, waitAQGo]
      norm_num
    simp [executeAthenaQuery, hv, engOk, hw]
  · have hw : (waitIdx 60 "qid" [.ok { state := .succeeded }]).res =
        .done { state := .succeeded } 0 := by
      simp only [waitIdx, waitIdxGo]
      norm_num [QState.isTerminal]
    have hq : pyStrip ((some "DROP DATABASE students" : Option String).getD "")
        = "DROP DATABASE students" := by decide
    have hne : ¬ (pyStrip "DROP DATABASE students" = "") := by decide
    have hlen : ¬ (262144 < (pyStrip "DROP DATABASE students").length) := by
      decide
    simp [tryI, validateEnvVar, parseBodyI, hq, hne, hlen, engOk, hw]

/-- Witness for the amended C4. -/
theorem c4_validator_amended_witness :
    (validateQueryLE "EXEC sp_who").1 = false ∧
    (∃ p ∈ dangerousPatternsLE,
      reSearchCI p.2 (pyStrip "EXEC sp_who") = true ∧
      (validateQueryLE "EXEC sp_who").2 =
        "Query contains disallowed pattern: " ++ p.1) ∧
    (executeQueryE {} "EXEC sp_who" none none 30 engOk).2.submits = 0 := by
  exact (c4_validator_amended "EXEC sp_who" {} none none 30 engOk).1
    ⟨("EXEC\\s+", [PatElem.lit "exec".toList, PatElem.wsPlus]),
      by decide, by decide⟩
    (by decide) (by decide)

theorem pyInsert_fresh {β : Type} (d : List (String × β)) (k : String) (v : β)
    (h : ∀ p ∈ d, p.1 ≠ k) : pyInsert d k v = d ++ [(k, v)] := by
  unfold pyInsert
  rw [if_neg]
  simp only [List.any_eq_true, not_exists, not_and]
  intro p hp
  simp only [beq_iff_eq]
  exact h p hp

theorem nodup_getElem_not_mem_take (names : List String) (hnd : names.Nodup)
    (i : ℕ) (hi : i < names.length) : names[i] ∉ names.take i := by
  intro hmem
  have h := hnd
  rw [← List.take_append_drop i names] at h
  have hdisj := (List.nodup_append.mp h).2.2
  exact hdisj hmem
    (by rw [List.drop_eq_getElem_cons hi]; exact List.mem_cons_self _ _)

theorem parseRowGoAQ_eq (names : List String) (hnd : names.Nodup) :
    ∀ (data : List RawDatum) (i : ℕ) (acc : List (String × Option String)),
      (∀ k, k ∈ acc.map Prod.fst → k ∈ names.take i) →
      parseRowGoAQ names data i acc =
        acc ++ (names.drop i).zip (data.map (·.varCharValue)) := by
  intro data
  induction data with
  | nil =>
    intro i acc _
    simp [parseRowGoAQ]
  | cons dt rest ih =>
    intro i acc hacc
    by_cases hi : i < names.length
    · have hname : names.getD i "" = names[i] := by
        rw [List.getD_eq_getElem?_getD, List.getElem?_eq_getElem hi]
        rfl
      have hfresh : ∀ p ∈ acc, p.1 ≠ names[i] := by
        intro p hp heq
        have hmem := hacc p.1 (List.mem_map_of_mem Prod.fst hp)
        rw [heq] at hmem
        exact nodup_getElem_not_mem_take names hnd i hi hmem
      have hsub : ∀ k, k ∈ ((acc ++ [(names[i], dt.varCharValue)]).map
          Prod.fst) → k ∈ names.take (i + 1) := by
        intro k hk
        rw [List.map_append, List.mem_append] at hk
        have htk : names.take (i + 1) = names.take i ++ [names[i]] := by
          rw [List.take_succ, List.getElem?_eq_getElem hi]
          rfl
        rcases hk with hk | hk
        · rw [htk]
          exact List.mem_append_left _ (hacc k hk)
        · simp only [List.map_cons, List.map_nil, List.mem_singleton] at hk
          rw [htk, hk]
          exact List.mem_append_right _ (List.mem_singleton_self _)
      simp only [parseRowGoAQ]
      rw [if_pos hi, hname, pyInsert_fresh _ _ _ hfresh, ih (i + 1) _ hsub,
        List.append_assoc]
      congr 1
      rw [List.drop_eq_getElem_cons hi, List.map_cons, List.zip_cons_cons]
      rfl
    · have hdrop : names.drop i = [] :=
        List.drop_eq_nil_of_le (le_of_not_lt hi)
      have hdrop2 : names.drop (i + 1) = [] :=
        List.drop_eq_nil_of_le (by omega)
      have hsub : ∀ k, k ∈ acc.map Prod.fst → k ∈ names.take (i + 1) := by
        intro k hk
        have h1 := hacc k hk
        rw [List.take_of_length_le (le_of_not_lt hi)] at h1
        rw [List.take_of_length_le (by omega)]
        exact h1
      simp only [parseRowGoAQ]
      rw [if_neg hi, ih (i + 1) acc hsub, hdrop, hdrop2]
      simp

theorem parseRowAQ_eq (names : List String) (hnd : names.Nodup)
    (data : List RawDatum) :
    parseRowAQ names data = names.zip (data.map (·.varCharValue)) := by
  unfold parseRowAQ
  rw [parseRowGoAQ_eq names hnd data 0 [] (by simp)]
  simp

theorem map_fst_zip_take {α β : Type} :
    ∀ (l1 : List α) (l2 : List β),
      (l1.zip l2).map Prod.fst = l1.take (min l1.length l2.length) := by
  intro l1
  induction l1 with
  | nil => intro l2; simp
  | cons a as ih =>
    intro l2
    cases l2 with
    | nil => simp
    | cons b bs =>
      simp only [List.zip_cons_cons, List.map_cons, List.length_cons,
        Nat.succ_min_succ, List.take_succ_cons, ih bs]

/-- C5 (amended): a raw row whose positional values are fewer than the
column descriptors is processed without error, but the missing trailing
columns are OMITTED from the row mapping rather than null-filled: the
parsed row is exactly the positional zip, and its key set is the first
`min (len data) (len columns)` column names. -/
theorem c5_short_row_amended (names : List String) (hnd : names.Nodup)
    (data : List RawDatum) :
    parseRowAQ names data = names.zip (data.map (·.varCharValue)) ∧
    (parseRowAQ names data).map Prod.fst =
      names.take (min names.length data.length) := by
  refine ⟨parseRowAQ_eq names hnd data, ?_⟩
  rw [parseRowAQ_eq names hnd data, map_fst_zip_take]
  simp

/-- Counterexample to C5 as stated. -/
theorem c5_short_row_counterexample :
    (getQueryResultsAQ page5).rows = [[("H1", some "a")]] ∧
    ((getQueryResultsAQ page5).rows = [[("H1", some "a"), ("H2", none)]] →
      False) ∧
    (getQueryResultsIdx page5).rows = [[("H1", "a")]] := by
  refine ⟨by decide, by decide, by decide⟩

/-- Witness for the amended C5. -/
theorem c5_short_row_amended_witness :
    parseRowAQ ["H1", "H2"] [{ varCharValue := some "a" }] =
      (["H1", "H2"].zip (([{ varCharValue := some "a" }] :
        List RawDatum).map (·.varCharValue))) ∧
    (parseRowAQ ["H1", "H2"] [{ varCharValue := some "a" }]).map Prod.fst =
      ["H1", "H2"].take (min (["H1", "H2"] : List String).length
        ([{ varCharValue := some "a" }] : List RawDatum).length) :=
  c5_short_row_amended ["H1", "H2"] (by decide) [{ varCharValue := some "a" }]

/-- C6: for a result page with column descriptors `H1, H2`, a header row,
and data rows `[a, b]` and `[c, d]`, normalization discards the header row
and zips each remaining row positionally, yielding
`[{H1: a, H2: b}, {H1: c, H2: d}]` with row count 2, in both
athena_query.py and lambda_enhanced.py. -/
theorem c6_header_roundtrip (n1 n2 : String) (h : n1 ≠ n2) (hdr : RawRow)
    (a b c d : Option String) :
    getQueryResultsAQ
      { columnInfo := [{ name := some n1 }, { name := some n2 }]
        rows := [hdr,
                 { data := [{ varCharValue := a }, { varCharValue := b }] },
                 { data := [{ varCharValue := c }, { varCharValue := d }] }] } =
      { columnMetadata := [⟨n1, "unknown"⟩, ⟨n2, "unknown"⟩]
        rows := [[(n1, a), (n2, b)], [(n1, c), (n2, d)]]
        rowCount := 2 } ∧
    (getQueryResultsLE
      { columnInfo := [{ name := some n1 }, { name := some n2 }]
        rows := [hdr,
                 { data := [{ varCharValue := a }, { varCharValue := b }] },
                 { data := [{ varCharValue := c }, { varCharValue := d }] }]
      }).rows = [[(n1, a), (n2, b)], [(n1, c), (n2, d)]] ∧
    (getQueryResultsLE
      { columnInfo := [{ name := some n1 }, { name := some n2 }]
        rows := [hdr,
                 { data := [{ varCharValue := a }, { varCharValue := b }] },
                 { data := [{ varCharValue := c }, { varCharValue := d }] }]
      }).rowCount = 2 := by
  have hnd : ([n1, n2] : List String).Nodup := by simp [h]
  have hz1 : parseRowAQ [n1, n2]
      [{ varCharValue := a }, { varCharValue := b }] = [(n1, a), (n2, b)] := by
    rw [parseRowAQ_eq _ hnd]
    rfl
  have hz2 : parseRowAQ [n1, n2]
      [{ varCharValue := c }, { varCharValue := d }] = [(n1, c), (n2, d)] := by
    rw [parseRowAQ_eq _ hnd]
    rfl
  refine ⟨?_, ?_, ?_⟩ <;>
    simp [getQueryResultsAQ, getQueryResultsLE, colNames, List.enum, hz1, hz2]

/-- Witness for C6. -/
theorem c6_header_roundtrip_witness :
    getQueryResultsAQ c6page =
      { columnMetadata := [⟨"H1", "unknown"⟩, ⟨"H2", "unknown"⟩]
        rows := [[("H1", some "a"), ("H2", some "b")],
                 [("H1", some "c"), ("H2", some "d")]]
        rowCount := 2 } ∧
    (getQueryResultsLE c6page).rows =
      [[("H1", some "a"), ("H2", some "b")],
       [("H1", some "c"), ("H2", some "d")]] ∧
    (getQueryResultsLE c6page).rowCount = 2 :=
  c6_header_roundtrip "H1" "H2" (by decide) { data := [] }
    (some "a") (some "b") (some "c") (some "d")

/-- Counterexample to C7 as stated. -/
theorem c7_unknown_template_counterexample :
    (lambdaHandlerE {} (some "POST") (some "/query/nonexistent") .absent
      (fun _ => engOk)).statusCode = 400 ∧
    (lambdaHandlerE {} (some "POST") (some "/query/nonexistent") .absent
      (fun _ => engOk)).body =
      .errBody "Invalid request" "Unknown query type: nonexistent" ∧
    ((lambdaHandlerE {} (some "POST") (some "/query/nonexistent") .absent
      (fun _ => engOk)).statusCode = 404 → False) := by
  refine ⟨by decide, by decide, by decide⟩

/-- C7 (amended): an unmatched route yields 404 with the listing of
available routes in the body, but an unknown template name raises
`ValueError` and therefore yields 400 (Invalid request), not 404. -/
theorem c7_routing_amended (cfg : ConfigP) (method path : String)
    (bodyIn : BodyIn) (body : BodyObj) (engs : ℕ → Engine)
    (hb : parseBodyE bodyIn = .ok body)
    (hmw : ¬ (body.maxWaitTime.getD cfg.maxWaitTime < 1 ∨
        900 < body.maxWaitTime.getD cfg.maxWaitTime)) :
    (¬ (method = "GET" ∧ (path = "/health" ∨ path = "/health/")) →
     ¬ (method = "POST" ∧ (path = "/batch" ∨ path = "/batch/")) →
     (truthy (queryTypeOf path) = none ∨ ¬ (method = "POST" ∨ method = "GET")) →
     ¬ (method = "POST" ∧ (path = "/query" ∨ path = "/query/")) →
     ¬ (method = "GET" ∧ (path = "/queries" ∨ path = "/queries/")) →
      lambdaHandlerE cfg (some method) (some path) bodyIn engs =
        formatResponseE 404
          (.notFound ("Route " ++ method ++ " " ++ path ++ " not found")
            availableRoutesE)) ∧
    (∀ t, truthy (queryTypeOf path) = some t →
      (method = "POST" ∨ method = "GET") →
      ¬ (method = "GET" ∧ (path = "/health" ∨ path = "/health/")) →
      ¬ (method = "POST" ∧ (path = "/batch" ∨ path = "/batch/")) →
      templateKeys.contains t = false →
      lambdaHandlerE cfg (some method) (some path) bodyIn engs =
        formatResponseE 400 (.errBody "Invalid request"
          ("Unknown query type: " ++ t))) := by
  constructor
  · intro hhealth hbatch hqt hcustom hqueries
    simp only [lambdaHandlerE, Option.getD_some, tryE, hb]
    rw [if_neg hhealth, if_neg hmw, if_neg hbatch]
    have htail : routeTailE cfg method path body.query
        (body.maxWaitTime.getD cfg.maxWaitTime).toNat engs =
        .ok (404, .notFound ("Route " ++ method ++ " " ++ path ++ " not found")
          availableRoutesE) := by
      simp only [routeTailE]
      rw [if_neg hcustom, if_neg hqueries]
    rcases hqt with hqt | hmeth
    · rw [hqt]
      simp only [htail]
    · cases hqt2 : truthy (queryTypeOf path) with
      | none => rw [htail]
      | some t =>
        simp only
        rw [if_neg hmeth, htail]
  · intro t hqt hmeth hhealth hbatch hkeys
    simp only [lambdaHandlerE, Option.getD_some, tryE, hb]
    rw [if_neg hhealth, if_neg hmw, if_neg hbatch, hqt]
    simp only [if_pos hmeth, hkeys]
    rfl

/-- Witness for the amended C7. -/
theorem c7_routing_amended_witness :
    lambdaHandlerE {} (some "DELETE") (some "/nope") .absent (fun _ => engOk) =
      formatResponseE 404
        (.notFound "Route DELETE /nope not found" availableRoutesE) ∧
    lambdaHandlerE {} (some "POST") (some "/query/zzz") .absent
        (fun _ => engOk) =
      formatResponseE 400 (.errBody "Invalid request"
        "Unknown query type: zzz") := by
  constructor
  · have h := (c7_routing_amended {} "DELETE" "/nope" .absent {}
      (fun _ => engOk) rfl (by decide)).1 (by decide) (by decide)
      (Or.inl (by decide)) (by decide) (by decide)
    exact h
  · have h := (c7_routing_amended {} "POST" "/query/zzz" .absent {}
      (fun _ => engOk) rfl (by decide)).2 "zzz" (by decide)
      (Or.inl rfl) (by decide) (by decide) (by decide)
    exact h

/-- C8 (amended): only index.py maps engine ClientError codes to specific
statuses (AccessDeniedException to 403, ThrottlingException to 429,
InternalServerException to 503, InvalidRequestException to 400, anything
else to 500); lambda_enhanced.py and athena_query.py have no ClientError
clause, so every ClientError — including access-denied and throttling —
falls to the catch-all and becomes 500, while BotoCoreError transport
errors map to 500 and TimeoutError to 408 in all three handlers. -/
theorem c8_engine_error_codes (code msg : String) (mw : ℕ) (el : ℤ)
    (i : String) :
    (catchI (.clientError "AccessDeniedException" msg) =
      (403, .codeBody "Access denied" "AccessDeniedException" msg)) ∧
    (catchI (.clientError "ThrottlingException" msg) =
      (429, .codeBody "Rate limited" "ThrottlingException" msg)) ∧
    (catchI (.clientError "InternalServerException" msg) =
      (503, .codeBody "Service unavailable" "InternalServerException" msg)) ∧
    (catchI (.clientError "InvalidRequestException" msg) =
      (400, .codeBody "Invalid request" "InvalidRequestException" msg)) ∧
    (code ≠ "InvalidRequestException" → code ≠ "AccessDeniedException" →
     code ≠ "ThrottlingException" → code ≠ "InternalServerException" →
      catchI (.clientError code msg) = (500, .codeBody code code msg)) ∧
    ((catchE (.clientError code msg)).1 = 500 ∧
      (catchA (.clientError code msg)).1 = 500) ∧
    ((catchE (.botoCoreError msg)).1 = 500 ∧
      (catchA (.botoCoreError msg)).1 = 500) ∧
    ((catchI (.timeoutError mw el i)).1 = 408 ∧
      (catchE (.timeoutError mw el i)).1 = 408 ∧
      (catchA (.timeoutError mw el i)).1 = 408) := by
  refine ⟨by simp [catchI], by simp [catchI], by simp [catchI], by simp [catchI],
    ?_, ⟨rfl, rfl⟩, ⟨rfl, rfl⟩, ⟨rfl, rfl, rfl⟩⟩
  intro h1 h2 h3 h4
  simp [catchI, h1, h2, h3, h4]

/-- Counterexample to C8 as stated. -/
theorem c8_engine_error_counterexample :
    (lambdaHandlerE {} (some "POST") (some "/query")
      (.dictBody { query := some "SELECT 1" }) (fun _ => engDenied)).statusCode
      = 500 ∧
    ((lambdaHandlerE {} (some "POST") (some "/query")
      (.dictBody { query := some "SELECT 1" }) (fun _ => engDenied)).statusCode
      = 403 → False) ∧
    (handlerA {} (.dictBody { query := some "SELECT 1" }) engDenied).1.statusCode
      = 500 ∧
    (handlerI { databaseName := some "db", s3Bucket := some "b" }
      (.dictBody { query := some "SELECT 1" }) engDenied).1.statusCode = 403 := by
  refine ⟨by decide, by decide, by decide, by decide⟩

/-- Witness for the amended C8. -/
theorem c8_engine_error_codes_witness :
    catchI (.clientError "SomethingElse" "m") =
      (500, .codeBody "SomethingElse" "SomethingElse" "m") :=
  (c8_engine_error_codes "SomethingElse" "m" 0 0 "q").2.2.2.2.1
    (by decide) (by decide) (by decide) (by decide)

theorem foldl_append_eq_map {α β : Type} (f : α → β) :
    ∀ (l : List α) (init : List β),
      l.foldl (fun acc p => acc ++ [f p]) init = init ++ l.map f := by
  intro l
  induction l with
  | nil => intro init; simp
  | cons a as ih =>
    intro init
    simp only [List.foldl_cons, List.map_cons, ih]
    simp

theorem mkEntryE_index (cfg : ConfigP) (maxWait : ℕ) (eng : Engine) (i : ℕ)
    (q : BatchItem) : (mkEntryE cfg maxWait eng i q).index = i + 1 := by
  unfold mkEntryE
  split
  · split <;> rfl
  · split
    · split <;> rfl
    · rfl

theorem handleBatchQueriesE_results (cfg : ConfigP) (queries : List BatchItem)
    (maxWait : ℕ) (engs : ℕ → Engine) :
    (handleBatchQueriesE cfg queries maxWait engs).results =
      queries.enum.map (fun p => mkEntryE cfg maxWait (engs p.1) p.1 p.2) := by
  unfold handleBatchQueriesE
  simp only [foldl_append_eq_map, List.nil_append]

/-- C9: a batch of n sub-queries produces exactly n entries in request
order, entry j is index-tagged `j + 1` and depends only on item j and its
own engine oracle (so one item's failure — e.g. an unknown template or a
missing type/query field — cannot abort or alter the others), and the
aggregate `successfulQueries` equals the number of entries whose `success`
flag is set. -/
theorem c9_batch_independent (cfg : ConfigP) (queries : List BatchItem)
    (maxWait : ℕ) (engs : ℕ → Engine) :
    (handleBatchQueriesE cfg queries maxWait engs).results.length =
      queries.length ∧
    (handleBatchQueriesE cfg queries maxWait engs).totalQueries =
      queries.length ∧
    (∀ j item, queries.get? j = some item →
      (handleBatchQueriesE cfg queries maxWait engs).results.get? j =
        some (mkEntryE cfg maxWait (engs j) j item)) ∧
    (∀ j entry,
      (handleBatchQueriesE cfg queries maxWait engs).results.get? j =
        some entry → entry.index = j + 1) ∧
    (handleBatchQueriesE cfg queries maxWait engs).successfulQueries =
      ((handleBatchQueriesE cfg queries maxWait engs).results.countP
        (·.success)) := by
  have hres := handleBatchQueriesE_results cfg queries maxWait engs
  have hlen : (handleBatchQueriesE cfg queries maxWait engs).results.length =
      queries.length := by
    rw [hres]
    simp [List.enum_length]
  refine ⟨hlen, ?_, ?_, ?_, ?_⟩
  · unfold handleBatchQueriesE
    simp only [foldl_append_eq_map, List.nil_append]
    simp [List.enum_length]
  · intro j item hj
    rw [List.get?_eq_getElem?] at hj
    rw [hres, List.get?_eq_getElem?, List.getElem?_map, List.getElem?_enum, hj]
    rfl
  · intro j entry hj
    rw [hres, List.get?_eq_getElem?, List.getElem?_map, List.getElem?_enum]
      at hj
    cases hq : queries[j]? with
    | none => rw [hq] at hj; simp at hj
    | some item =>
      rw [hq] at hj
      simp only [Option.map_some'] at hj
      cases hj
      exact mkEntryE_index cfg maxWait (engs j) j item
  · unfold handleBatchQueriesE
    simp only [foldl_append_eq_map, List.nil_append]

/-- Witness for C9. -/
theorem c9_batch_independent_witness :
    (handleBatchQueriesE {} c9items 30 (fun _ => engOk)).results.length = 3 ∧
    (handleBatchQueriesE {} c9items 30 (fun _ => engOk)).results.get? 1 =
      some (mkEntryE {} 30 engOk 1 { type := some "unknown_template" }) ∧
    mkEntryE {} 30 engOk 1 { type := some "unknown_template" } =
      ⟨2, false, .exn "Unknown query type: unknown_template"⟩ ∧
    (handleBatchQueriesE {} c9items 30 (fun _ => engOk)).successfulQueries =
      ((handleBatchQueriesE {} c9items 30 (fun _ => engOk)).results.countP
        (·.success)) := by
  have h := c9_batch_independent {} c9items 30 (fun _ => engOk)
  exact ⟨h.1, h.2.2.1 1 { type := some "unknown_template" } (by decide),
    by decide, h.2.2.2.2⟩

/-- C10: each of the three handlers is total — for every event and engine
behaviour it returns a `format_response` envelope whose headers carry
`Content-Type: application/json` — and every exception not matched by one
of its named `except` clauses is mapped to status 500 by the final
`except Exception`. -/
theorem c10_handler_total (cfg : ConfigP) (cfgI : ConfigI)
    (m p : Option String) (bodyIn : BodyIn) (engs : ℕ → Engine)
    (eng : Engine) :
    (∃ s b, lambdaHandlerE cfg m p bodyIn engs = formatResponseE s b) ∧
    (lambdaHandlerE cfg m p bodyIn engs).headers = headersE ∧
    (∃ s b, (handlerA cfg bodyIn eng).1 = formatResponseA s b) ∧
    (handlerA cfg bodyIn eng).1.headers = headersA ∧
    (∃ s b, (handlerI cfgI bodyIn eng).1 = formatResponseI s b) ∧
    (handlerI cfgI bodyIn eng).1.headers = headersI ∧
    (∀ e : PyErr, matchedByNamedE e = false →
      (catchE e).1 = 500 ∧ (catchA e).1 = 500) ∧
    (∀ e : PyErr, matchedByNamedI e = false → (catchI e).1 = 500) := by
  have hhE : (lambdaHandlerE cfg m p bodyIn engs).headers = headersE := by
    unfold lambdaHandlerE
    split <;> rfl
  have hhA : (handlerA cfg bodyIn eng).1.headers = headersA := by
    unfold handlerA
    split <;> rfl
  have hhI : (handlerI cfgI bodyIn eng).1.headers = headersI := by
    unfold handlerI
    split <;> rfl
  refine ⟨⟨(lambdaHandlerE cfg m p bodyIn engs).statusCode,
      (lambdaHandlerE cfg m p bodyIn engs).body, ?_⟩, hhE,
    ⟨(handlerA cfg bodyIn eng).1.statusCode,
      (handlerA cfg bodyIn eng).1.body, ?_⟩, hhA,
    ⟨(handlerI cfgI bodyIn eng).1.statusCode,
      (handlerI cfgI bodyIn eng).1.body, ?_⟩, hhI, ?_, ?_⟩
  · rw [formatResponseE, ← hhE]
  · rw [formatResponseA, ← hhA]
  · rw [formatResponseI, ← hhI]
  · intro e he
    cases e <;> simp [matchedByNamedE] at he ⊢ <;> simp [catchE, catchA]
  · intro e he
    cases e <;> simp [matchedByNamedI] at he ⊢ <;> simp [catchI]

/-- Witness for C10: an unclassified ClientError becomes 500 in
lambda_enhanced.py / athena_query.py, and an unclassified exception becomes
500 in index.py. -/
theorem c10_handler_total_witness :
    ((catchE (.clientError "X" "m")).1 = 500 ∧
      (catchA (.clientError "X" "m")).1 = 500) ∧
    (catchI .modelStuck).1 = 500 := by
  have h := c10_handler_total {} {} none none .absent (fun _ => engOk) engOk
  exact ⟨h.2.2.2.2.2.2.1 (.clientError "X" "m") (by decide),
    h.2.2.2.2.2.2.2 .modelStuck (by decide)⟩

end AwsLake
